import Mathlib

/-!
# hzgl-lora-communicator: telemetry and uplink scheduling core

A shallow embedding of `src/lorawan.cpp`, `src/wifi.cpp` and `src/env_sensor.cpp`.

Conventions of the embedding.

* `unsigned long` and `size_t` are 32 bits wide on the ESP32 target. A value of such a
  type is a `Nat`; every increment, addition and subtraction the source performs on one
  is reduced modulo `2 ^ 32` (`u32`, `u32_sub`).
* A byte buffer is an index map `Nat → Nat`. A 6-byte hardware address is `Fin 6 → Nat`.
* Floating-point quantities are values of a type `F` that comes with the handful of
  operations the source applies to them (`float_ops`): nothing is assumed about rounding.
* Headers (`lorawan.h`, `wifi.h`, `hardware_facts.h`, `oled.h`, ...) and the `DataPacket`
  class are not among the source files: their macros are fields of `hardware_facts`, and
  the packet encoder is the interface `DataPacket_ops`.
* Globals of a translation unit become one state record that every function takes and
  returns; values obtained from collaborators (clock, radio stack, display, GPS) are
  explicit inputs.
-/

namespace LoraCommunicator

/-! ## Machine words -/

/-- Reduction of a natural number to an unsigned 32-bit word. -/
def u32 (x : Nat) : Nat := x % 2 ^ 32

/-- Unsigned 32-bit subtraction `a - b`, wrapping around below zero. -/
def u32_sub (a b : Nat) : Nat := (a % 2 ^ 32 + 2 ^ 32 - b % 2 ^ 32) % 2 ^ 32

/-! ## Constants that live in headers outside the source files -/

/-- Macros used by the three translation units. Their values are defined in headers
that are not part of the sources, so they are parameters of the embedding. -/
structure hardware_facts where
  LORAWAN_MAX_MESSAGE_LEN : Nat
  LORAWAN_PORT_STATUS_SENSOR : Int
  LORAWAN_PORT_GPS_WIFI : Int
  LORAWAN_PORT_MESSAGE : Int
  LORAWAN_PORT_COMMAND : Int
  OLED_PAGE_TX_COMMAND : Int
  OLED_PAGE_TX_MESSAGE : Int
  WIFI_MAX_CHANNEL_NUM : Nat
  WIFI_RSSI_FLOOR : Int
  BLUETOOTH_RSSI_FLOOR : Int

/-- The operations the source applies to floating-point values. `is_zero x` is the C
comparison `x == 0`, `add` is `+`, `div_int x k` is `x / k` for an integer constant `k`,
`to_int` is the cast `(int)x`, and `zero` is the literal `0`. -/
structure float_ops (F : Type) where
  zero : F
  is_zero : F → Bool
  add : F → F → F
  div_int : F → Int → F
  to_int : F → Int

/-! ## lorawan.cpp: data -/

/-- The record `lorawan_message_buf_t` (declared in `lorawan.h`), with the four members
the source uses. -/
structure lorawan_message_buf_t where
  buf : Nat → Nat
  len : Nat
  port : Int
  timestamp_millis : Nat

/-- The record `lorawan_power_config_t` (declared in `lorawan.h`), with the three members
the source uses. -/
structure lorawan_power_config_t where
  power_dbm : Int
  spreading_factor : Int
  tx_internal_sec : Nat

/-- The part of the radio stack's global `LMIC` that the source reads. `dataLen` and
`dataBeg` are 8-bit members; `ack` is the test `LMIC.txrxFlags & TXRX_ACK` and `txrxpend`
is the test `LMIC.opmode & OP_TXRXPEND`. -/
structure lmic_t where
  ack : Bool
  txrxpend : Bool
  dataLen : Fin 256
  dataBeg : Fin 256
  frame : Nat → Nat

/-- The event codes of the radio stack (`ev_t` of the MCCI LMIC library). -/
inductive ev_t where
  | EV_SCAN_TIMEOUT | EV_BEACON_FOUND | EV_BEACON_MISSED | EV_BEACON_TRACKED
  | EV_JOINING | EV_JOINED | EV_RFU1 | EV_JOIN_FAILED | EV_REJOIN_FAILED
  | EV_TXCOMPLETE | EV_LOST_TSYNC | EV_RESET | EV_RXCOMPLETE | EV_LINK_DEAD
  | EV_LINK_ALIVE | EV_SCAN_FOUND | EV_TXSTART | EV_TXCANCELED | EV_RXSTART
  | EV_JOIN_TXCOMPLETE
  deriving DecidableEq, Repr

/-- The argument of `lorawan_handle_message`: an event code of the radio stack, or one
of the four codes `LORAWAN_EV_*` that `lorawan.h` adds to them. -/
inductive lorawan_message where
  | lmic_event (e : ev_t)
  | LORAWAN_EV_ACK
  | LORAWAN_EV_IDLING_BEFORE_TXRX
  | LORAWAN_EV_QUEUED_FOR_TX
  | LORAWAN_EV_RESPONSE
  deriving DecidableEq, Repr

/-- The file-scope variables of `lorawan.cpp`. -/
structure lorawan_state where
  total_tx_bytes : Nat
  total_rx_bytes : Nat
  next_tx_message : lorawan_message_buf_t
  last_rx_message : lorawan_message_buf_t
  power_config : lorawan_power_config_t
  last_transmision_timestamp : Nat
  tx_counter : Nat

/-! ## lorawan.cpp: reception -/

/-- The copy loop of the `LORAWAN_EV_RESPONSE` case, for `i = 0 .. data_len - 1`:
`last_rx_message.buf[i] = LMIC.frame[LMIC.dataBeg + i]`. The counter `i` is 8 bits wide
and `data_len` never exceeds 255 (it comes from the 8-bit `LMIC.dataLen`), so the
counter reaches `data_len` without wrapping. -/
def rx_copy_loop (frame : Nat → Nat) (dataBeg : Nat) : Nat → (Nat → Nat) → (Nat → Nat)
  | 0, buf => buf
  | i + 1, buf => Function.update (rx_copy_loop frame dataBeg i buf) i (frame (dataBeg + i))

/-- The function `lorawan_handle_message`. Every case but `LORAWAN_EV_RESPONSE` only
writes a log line. `now` is the value `millis()` returns in the response case. -/
def lorawan_handle_message (c : hardware_facts) (LMIC : lmic_t) (now : Nat)
    (message : lorawan_message) (s : lorawan_state) : lorawan_state :=
  match message with
  | lorawan_message.LORAWAN_EV_RESPONSE =>
    let s1 := { s with total_rx_bytes := u32 (s.total_rx_bytes + LMIC.dataLen.val) }
    let data_len := LMIC.dataLen.val
    if data_len > 0 then
      let data_len := if data_len > c.LORAWAN_MAX_MESSAGE_LEN
        then c.LORAWAN_MAX_MESSAGE_LEN else data_len
      let buf1 := rx_copy_loop LMIC.frame LMIC.dataBeg.val data_len s1.last_rx_message.buf
      let buf2 := Function.update buf1 data_len 0
      { s1 with last_rx_message :=
          { s1.last_rx_message with buf := buf2, len := data_len, timestamp_millis := now } }
    else s1
  | _ => s

/-- The callback `onEvent` that the radio stack invokes. `now_tx` is the clock value read
in the `EV_TXCOMPLETE` case, `now_rx` the one read while the response is stored. -/
def onEvent (c : hardware_facts) (LMIC : lmic_t) (now_tx now_rx : Nat) (event : ev_t)
    (s : lorawan_state) : lorawan_state :=
  let s1 :=
    match event with
    | ev_t.EV_TXCOMPLETE =>
      let s2 := { s with
        next_tx_message := { s.next_tx_message with timestamp_millis := now_tx },
        tx_counter := u32 (s.tx_counter + 1) }
      let s3 := if LMIC.ack
        then lorawan_handle_message c LMIC now_rx lorawan_message.LORAWAN_EV_ACK s2 else s2
      if LMIC.dataLen.val > 0
        then lorawan_handle_message c LMIC now_rx lorawan_message.LORAWAN_EV_RESPONSE s3
        else s3
    | _ => s
  lorawan_handle_message c LMIC now_rx (lorawan_message.lmic_event event) s1

/-! ## lorawan.cpp: the pending uplink -/

/-- The function `lorawan_set_next_transmission`: `memcpy` overwrites the first `len`
bytes (after the clamp) of the pending buffer and leaves the rest. -/
def lorawan_set_next_transmission (c : hardware_facts) (buf : Nat → Nat) (len : Nat)
    (port : Int) (s : lorawan_state) : lorawan_state :=
  let len := if len > c.LORAWAN_MAX_MESSAGE_LEN then c.LORAWAN_MAX_MESSAGE_LEN else len
  { s with next_tx_message :=
      { s.next_tx_message with
        buf := fun i => if i < len then buf i else s.next_tx_message.buf i,
        len := len,
        port := port } }

/-- The function `lorawan_set_power_config`. -/
def lorawan_set_power_config (val : lorawan_power_config_t) (s : lorawan_state) :
    lorawan_state :=
  { s with power_config := val }

/-- The accessor `lorawan_get_power_config`. -/
def lorawan_get_power_config (s : lorawan_state) : lorawan_power_config_t := s.power_config

/-- The accessor `lorawan_get_last_reception`. -/
def lorawan_get_last_reception (s : lorawan_state) : lorawan_message_buf_t :=
  s.last_rx_message

/-- The accessor `lorawan_get_transmission`. -/
def lorawan_get_transmission (s : lorawan_state) : lorawan_message_buf_t :=
  s.next_tx_message

/-- The accessor `lorawan_get_total_tx_bytes`. -/
def lorawan_get_total_tx_bytes (s : lorawan_state) : Nat := s.total_tx_bytes

/-- The accessor `lorawan_get_total_rx_bytes`. -/
def lorawan_get_total_rx_bytes (s : lorawan_state) : Nat := s.total_rx_bytes

/-! ## wifi.cpp -/

/-- The frame classes of the promiscuous receiver (`wifi_promiscuous_pkt_type_t`). -/
inductive wifi_promiscuous_pkt_type_t where
  | WIFI_PKT_MGMT | WIFI_PKT_CTRL | WIFI_PKT_DATA | WIFI_PKT_MISC
  deriving DecidableEq, Repr

/-- The file-scope variables of `wifi.cpp`. `channel_pkt_counter` is declared with
`WIFI_MAX_CHANNEL_NUM` entries of type `size_t`: the entries are the values of the index
map at `0 .. WIFI_MAX_CHANNEL_NUM - 1` (stores go through `store_channel_pkt_counter`, and
the indices of the stores are listed by `wifi_next_channel_stores`). -/
structure wifi_state where
  is_powered_on : Bool
  round_num : Nat
  channel_num : Nat
  pkt_counter : Nat
  channel_pkt_counter : Nat → Nat
  last_loudest_sender : Fin 6 → Nat
  loudest_sender : Fin 6 → Nat
  last_loudest_rssi : Int
  loudest_rssi : Int
  last_loudest_channel : Nat
  loudest_channel : Nat

/-- The store `channel_pkt_counter[idx] = value`. An index below `WIFI_MAX_CHANNEL_NUM`
writes the entry. The index `WIFI_MAX_CHANNEL_NUM` is one past the end of the array: the
four bytes of the `size_t` value (least significant first) go to the memory that follows
the array, which holds `last_loudest_sender[0 .. 3]`, the next zero-initialised variable
of the file in declaration order. No index beyond that is reached from a channel number
in `1 .. WIFI_MAX_CHANNEL_NUM`; such a store is kept in the index map. -/
def store_channel_pkt_counter (c : hardware_facts) (idx value : Nat) (s : wifi_state) :
    wifi_state :=
  if idx = c.WIFI_MAX_CHANNEL_NUM then
    { s with last_loudest_sender :=
        fun i => if i.val < 4 then value / 256 ^ i.val % 256 else s.last_loudest_sender i }
  else
    { s with channel_pkt_counter := Function.update s.channel_pkt_counter idx value }

/-- The statement `if (++channel_num > WIFI_MAX_CHANNEL_NUM) { ... }` of
`wifi_next_channel`: the advance of the channel number and, on a wrap, the start of a new
round. -/
def wifi_advance_channel (c : hardware_facts) (s : wifi_state) : wifi_state :=
  let s3 := { s with channel_num := u32 (s.channel_num + 1) }
  if s3.channel_num > c.WIFI_MAX_CHANNEL_NUM then
    { s3 with
      channel_num := 1,
      round_num := u32 (s3.round_num + 1),
      last_loudest_rssi := s3.loudest_rssi,
      last_loudest_channel := s3.loudest_channel,
      last_loudest_sender := s3.loudest_sender,
      loudest_rssi := c.WIFI_RSSI_FLOOR,
      loudest_channel := 0,
      loudest_sender := fun _ => 0 }
  else s3

/-- The function `wifi_next_channel`, run under the mutex from start to end. -/
def wifi_next_channel (c : hardware_facts) (s : wifi_state) : wifi_state :=
  let s1 := store_channel_pkt_counter c (u32_sub s.channel_num 1) s.pkt_counter s
  let s2 := { s1 with pkt_counter := 0 }
  let s4 := wifi_advance_channel c s2
  store_channel_pkt_counter c s4.channel_num 0 s4

/-- The indices at which one call of `wifi_next_channel` stores into
`channel_pkt_counter`: first `channel_num - 1` with the old channel, then the new
`channel_num`. -/
def wifi_next_channel_stores (c : hardware_facts) (s : wifi_state) : List Nat :=
  [u32_sub s.channel_num 1, (wifi_next_channel c s).channel_num]

/-- The callback `wifi_sniffer_packet_handler` for one received frame: `type` is the
frame class, `rssi` and `channel` come from the receiver's control block and `addr2` is
the sender address of the header. -/
def wifi_sniffer_packet_handler (type : wifi_promiscuous_pkt_type_t) (rssi : Int)
    (channel : Nat) (addr2 : Fin 6 → Nat) (s : wifi_state) : wifi_state :=
  if type ≠ wifi_promiscuous_pkt_type_t.WIFI_PKT_MGMT then s
  else
    let s1 := { s with pkt_counter := u32 (s.pkt_counter + 1) }
    if rssi > s1.loudest_rssi then
      { s1 with loudest_rssi := rssi, loudest_channel := channel, loudest_sender := addr2 }
    else s1

/-- The accessor `wifi_get_last_loudest_sender_rssi`. -/
def wifi_get_last_loudest_sender_rssi (s : wifi_state) : Int := s.last_loudest_rssi

/-- The accessor `wifi_get_last_loudest_sender_mac`. -/
def wifi_get_last_loudest_sender_mac (s : wifi_state) : Fin 6 → Nat := s.last_loudest_sender

/-- The accessor `wifi_get_last_loudest_sender_channel`. -/
def wifi_get_last_loudest_sender_channel (s : wifi_state) : Nat := s.last_loudest_channel

/-- The function `wifi_get_total_num_pkts`: the 32-bit sum of the per-channel counters. -/
def wifi_get_total_num_pkts (c : hardware_facts) (s : wifi_state) : Nat :=
  (List.range c.WIFI_MAX_CHANNEL_NUM).foldl (fun sum i => u32 (sum + s.channel_pkt_counter i)) 0

/-- The accessor `wifi_get_channel_num`. -/
def wifi_get_channel_num (s : wifi_state) : Nat := s.channel_num

/-- The accessor `wifi_get_round_num`. -/
def wifi_get_round_num (s : wifi_state) : Nat := s.round_num

/-- What happens to the scanner between two observations: a hop tick, or the arrival of
one frame. -/
inductive wifi_step where
  | hop
  | frame (type : wifi_promiscuous_pkt_type_t) (rssi : Int) (channel : Nat)
      (addr2 : Fin 6 → Nat)

/-- One step of the scanner. -/
def wifi_do_step (c : hardware_facts) (s : wifi_state) : wifi_step → wifi_state
  | wifi_step.hop => wifi_next_channel c s
  | wifi_step.frame type rssi channel addr2 =>
    wifi_sniffer_packet_handler type rssi channel addr2 s

/-- A sequence of steps, leftmost first. -/
def wifi_run (c : hardware_facts) (steps : List wifi_step) (s : wifi_state) : wifi_state :=
  steps.foldl (wifi_do_step c) s

/-- The number of hop ticks in a sequence of steps. -/
def wifi_hops : List wifi_step → Nat
  | [] => 0
  | wifi_step.hop :: rest => wifi_hops rest + 1
  | wifi_step.frame _ _ _ _ :: rest => wifi_hops rest

/-! ## env_sensor.cpp -/

/-- The record `env_data` (declared in `env_sensor.h`). -/
structure env_data (F : Type) where
  temp_celcius : F
  humidity_pct : F
  pressure_hpa : F
  altitude_metre : F

/-- The record `power_status` (declared in `power_management.h`), with the members the
sources use. -/
structure power_status (F : Type) where
  is_usb_power_available : Bool
  is_batt_charging : Bool
  batt_millivolt : Int
  power_draw_milliamp : F

/-- What the BME280 driver returns to the four reads of one sampling pass. -/
structure bme280_readings (F : Type) where
  readAltitude : F
  readHumidity : F
  readPressure : F
  readTemperature : F

/-- The file-scope variables of `env_sensor.cpp`. -/
structure env_sensor_state (F : Type) where
  latest : env_data F
  sum_temp_readings : F

/-- The function `env_sensor_read_decode`. `TEMP_OFFSET_CELCIUS_USB` and
`TEMP_OFFSET_CELCIUS_BATT` are macros of a header outside the sources; `power` is what
`power_get_status()` returns. -/
def env_sensor_read_decode {F : Type} (fo : float_ops F)
    (TEMP_OFFSET_CELCIUS_USB TEMP_OFFSET_CELCIUS_BATT : F) (bme : bme280_readings F)
    (power : power_status F) (s : env_sensor_state F) : env_sensor_state F :=
  let latest : env_data F :=
    { altitude_metre := bme.readAltitude,
      humidity_pct := bme.readHumidity,
      pressure_hpa := fo.div_int bme.readPressure 100,
      temp_celcius := bme.readTemperature }
  let latest :=
    if fo.is_zero latest.humidity_pct && fo.is_zero latest.pressure_hpa
        && fo.is_zero latest.temp_celcius then
      { latest with altitude_metre := fo.zero }
    else if power.is_usb_power_available then
      { latest with temp_celcius := fo.add latest.temp_celcius TEMP_OFFSET_CELCIUS_USB }
    else
      { latest with temp_celcius := fo.add latest.temp_celcius TEMP_OFFSET_CELCIUS_BATT }
  { s with latest := latest, sum_temp_readings := fo.add s.sum_temp_readings latest.temp_celcius }

/-- The accessor `env_sensor_get_data`. -/
def env_sensor_get_data {F : Type} (s : env_sensor_state F) : env_data F := s.latest

/-- The accessor `env_sensor_get_sum_temp_readings`. -/
def env_sensor_get_sum_temp_readings {F : Type} (s : env_sensor_state F) : F :=
  s.sum_temp_readings

/-! ## lorawan.cpp: building the uplink -/

/-- The record `gps_data` (declared in `gps.h`), with the members the source uses. -/
structure gps_data (F : Type) where
  latitude : F
  longitude : F
  speed_kmh : F
  heading_deg : F
  altitude_metre : F
  pos_age_sec : Nat
  hdop : F
  satellites : Int

/-- What the source asks of the `BLEAdvertisedDevice` that `bluetooth_get_loudest_sender`
returns: `getRSSI()`, `haveRSSI()` and the six bytes of `getAddress().getNative()`. -/
structure ble_device where
  getRSSI : Int
  haveRSSI : Bool
  address : Fin 6 → Nat

/-- The interface of the `DataPacket` class (its source is not among the files): the
constructor with a capacity, the two writers, and the members `content` and `cursor`. -/
structure DataPacket_ops (F P : Type) where
  create : Nat → P
  writeInteger : P → Int → Nat → P
  write32BitDouble : P → F → P
  content : P → Nat → Nat
  cursor : P → Nat

/-- Everything `lorawan_prepare_uplink_transmission` obtains from its collaborators:
the clock, the power manager, the heap statistics, the latest sensor record, the GPS
record, the scanner's variables (read through the `wifi_get_` accessors), the Bluetooth
monitor, the pending Morse text (one character code per element) and the display. -/
structure uplink_inputs (F : Type) where
  millis : Nat
  power_uptime_sec : Int
  heap_size : Nat
  free_heap : Nat
  power : power_status F
  env : env_data F
  gps : gps_data F
  wifi : wifi_state
  bluetooth_total_num_devices : Int
  bluetooth_loudest_sender : ble_device
  morse_message_buf : List Nat
  oled_last_morse_input_page_num : Int
  oled_page_number : Int

/-- The value of `last_rx` that the kind 0 builder passes to `writeInteger(last_rx, 2)`:
`now` is `millis()` and `timestamp_millis` the time stamp of the last reception. -/
def uplink_last_rx_sec (now timestamp_millis : Nat) : Nat :=
  let last_rx := u32_sub now timestamp_millis / 1000
  if last_rx > 65536 || last_rx == 0 then 65536 else last_rx

/-- The value of `gps.pos_age_sec` that the kind 1 builder passes to
`writeInteger(gps.pos_age_sec, 2)`. -/
def uplink_gps_age_sec (pos_age_sec : Nat) : Nat :=
  if pos_age_sec > 65536 then 65536 else pos_age_sec

/-- The loops `for (int i = 0; i < 6; ++i) pkt.writeInteger(mac[i], 1)`. -/
def write_mac {F P : Type} (ops : DataPacket_ops F P) (mac : Fin 6 → Nat) (pkt : P) : P :=
  (List.finRange 6).foldl (fun p i => ops.writeInteger p (mac i) 1) pkt

/-- The payload of kind 0 (status and sensor readings), as the packet handed to
`lorawan_set_next_transmission`. -/
def build_status_sensor {F P : Type} (c : hardware_facts) (fo : float_ops F)
    (ops : DataPacket_ops F P) (inp : uplink_inputs F) (s : lorawan_state) : P :=
  let pkt := ops.create c.LORAWAN_MAX_MESSAGE_LEN
  let last_reception := lorawan_get_last_reception s
  let pkt := ops.writeInteger pkt (uplink_last_rx_sec inp.millis last_reception.timestamp_millis) 2
  let pkt := ops.writeInteger pkt inp.power_uptime_sec 4
  let pkt := ops.writeInteger pkt (u32_sub inp.heap_size inp.free_heap / 1024 : Nat) 2
  let pkt := ops.writeInteger pkt inp.power.batt_millivolt 2
  let pkt := ops.writeInteger pkt (fo.to_int inp.power.power_draw_milliamp) 2
  let pkt := ops.writeInteger pkt (if inp.power.is_batt_charging then 1 else 0) 1
  let pkt := ops.write32BitDouble pkt inp.env.temp_celcius
  let pkt := ops.writeInteger pkt (fo.to_int inp.env.humidity_pct) 1
  let pkt := ops.write32BitDouble pkt inp.env.pressure_hpa
  ops.write32BitDouble pkt inp.env.altitude_metre

/-- The payload of kind 1 (GPS, WiFi and Bluetooth monitors), as the packet handed to
`lorawan_set_next_transmission`. -/
def build_gps_wifi {F P : Type} (c : hardware_facts) (fo : float_ops F)
    (ops : DataPacket_ops F P) (inp : uplink_inputs F) : P :=
  let pkt := ops.create c.LORAWAN_MAX_MESSAGE_LEN
  let gps := inp.gps
  let pkt := ops.write32BitDouble pkt gps.latitude
  let pkt := ops.write32BitDouble pkt gps.longitude
  let pkt := ops.writeInteger pkt (fo.to_int gps.speed_kmh) 2
  let pkt := ops.writeInteger pkt (fo.to_int gps.heading_deg) 2
  let pkt := ops.write32BitDouble pkt gps.altitude_metre
  let pkt := ops.writeInteger pkt (uplink_gps_age_sec gps.pos_age_sec : Nat) 2
  let hdop := fo.to_int gps.hdop
  let hdop := if hdop > 256 then 256 else hdop
  let pkt := ops.writeInteger pkt hdop 1
  let pkt := ops.writeInteger pkt gps.satellites 1
  let pkt := ops.writeInteger pkt (wifi_get_total_num_pkts c inp.wifi : Nat) 1
  let pkt := ops.writeInteger pkt (wifi_get_last_loudest_sender_channel inp.wifi : Nat) 1
  let wifi_rssi := wifi_get_last_loudest_sender_rssi inp.wifi
  let wifi_rssi := if wifi_rssi < -100 then -100 else wifi_rssi
  let pkt := ops.writeInteger pkt (wifi_rssi - c.WIFI_RSSI_FLOOR) 1
  let pkt := write_mac ops (wifi_get_last_loudest_sender_mac inp.wifi) pkt
  let pkt := ops.writeInteger pkt inp.bluetooth_total_num_devices 1
  let dev := inp.bluetooth_loudest_sender
  let bt_rssi := dev.getRSSI
  let bt_rssi := if bt_rssi < -100 then -100 else bt_rssi
  let pkt := ops.writeInteger pkt (bt_rssi - c.BLUETOOTH_RSSI_FLOOR) 1
  let bt_mac : Fin 6 → Nat := if dev.haveRSSI then dev.address else fun _ => 0
  write_mac ops bt_mac pkt

/-- The loop of the kind 2 builder, for `i = 0 .. length - 1`:
`buf[i] = (uint8_t)morse_message.charAt(i)`. The staging array `buf` has
`LORAWAN_MAX_MESSAGE_LEN` entries; it is kept as an index map (the indices stored to
are `0 .. length - 1`). -/
def morse_copy_loop (morse_message : List Nat) : Nat → (Nat → Nat) → (Nat → Nat)
  | 0, buf => buf
  | i + 1, buf =>
    Function.update (morse_copy_loop morse_message i buf) i (morse_message.getD i 0 % 256)

/-- The indices of the staging array `buf` that the loop of the kind 2 builder stores
to when it runs for `i = 0 .. length - 1`, in the order of the stores. -/
def morse_copy_loop_stores : Nat → List Nat
  | 0 => []
  | i + 1 => morse_copy_loop_stores i ++ [i]

/-- The first statement of `lorawan_prepare_uplink_transmission`:
`int message_kind = tx_counter % 3`. -/
def uplink_message_kind (tx_counter : Nat) : Nat := tx_counter % 3

/-- The function `lorawan_prepare_uplink_transmission`. -/
def lorawan_prepare_uplink_transmission {F P : Type} (c : hardware_facts) (fo : float_ops F)
    (ops : DataPacket_ops F P) (inp : uplink_inputs F) (s : lorawan_state) : lorawan_state :=
  let message_kind := uplink_message_kind s.tx_counter
  if message_kind = 0 then
    let pkt := build_status_sensor c fo ops inp s
    lorawan_set_next_transmission c (ops.content pkt) (ops.cursor pkt)
      c.LORAWAN_PORT_STATUS_SENSOR s
  else if message_kind = 1 then
    let pkt := build_gps_wifi c fo ops inp
    lorawan_set_next_transmission c (ops.content pkt) (ops.cursor pkt)
      c.LORAWAN_PORT_GPS_WIFI s
  else if message_kind = 2 then
    let morse_message := inp.morse_message_buf
    let buf := morse_copy_loop morse_message morse_message.length (fun _ => 0)
    let port :=
      if inp.oled_last_morse_input_page_num = c.OLED_PAGE_TX_COMMAND
      then c.LORAWAN_PORT_COMMAND else c.LORAWAN_PORT_MESSAGE
    if inp.oled_page_number ≠ c.OLED_PAGE_TX_COMMAND
        ∧ inp.oled_page_number ≠ c.OLED_PAGE_TX_MESSAGE then
      lorawan_set_next_transmission c buf morse_message.length port s
    else s
  else s

/-! ## lorawan.cpp: the scheduler tick -/

/-- One invocation of `onEvent` by the radio stack: the event, the `LMIC` record at that
moment and the two clock values the handler reads. -/
structure lmic_callback where
  event : ev_t
  LMIC : lmic_t
  millis_tx : Nat
  millis_rx : Nat

/-- The call `os_runloop_once()`: the radio stack runs its due jobs, which reach this
translation unit only through the `onEvent` callbacks they make. -/
def os_runloop_once (c : hardware_facts) (callbacks : List lmic_callback)
    (s : lorawan_state) : lorawan_state :=
  callbacks.foldl (fun st cb => onEvent c cb.LMIC cb.millis_tx cb.millis_rx cb.event st) s

/-- The inputs of one call of `lorawan_transceive`: the callbacks made during
`os_runloop_once()`, the clock value read by the rate-limit test, the collaborators'
values for the builder, the clock value stored as time of the attempt, the result
function of the send primitive `LMIC_setTxData2_strict(port, buf, len, false)` and the
`LMIC` record after the submission. -/
structure tick_inputs (F : Type) where
  runloop_callbacks : List lmic_callback
  millis_gate : Nat
  uplink : uplink_inputs F
  millis_stamp : Nat
  LMIC_setTxData2_strict : Int → (Nat → Nat) → Nat → Int
  LMIC : lmic_t

/-- The error code `LMIC_ERROR_SUCCESS` of the radio stack. -/
def LMIC_ERROR_SUCCESS : Int := 0

/-- One call of the send primitive: its arguments and the error code it returned. -/
structure tx_submission where
  port : Int
  buf : Nat → Nat
  len : Nat
  err : Int

/-- The outcome of one call of `lorawan_transceive`: the variables afterwards, the call
of the send primitive it made (if any), and the message it passed to
`lorawan_handle_message` at the end (if any). -/
structure tick_result where
  state : lorawan_state
  submitted : Option tx_submission
  surfaced : Option lorawan_message

/-- The rate-limit test of `lorawan_transceive`, evaluated in unsigned 32-bit arithmetic:
`last_transmision_timestamp == 0 || millis() - last_transmision_timestamp >
power_config.tx_internal_sec * 1000`. -/
def tx_gate_open (now : Nat) (s : lorawan_state) : Bool :=
  s.last_transmision_timestamp == 0
    || decide (u32_sub now s.last_transmision_timestamp
        > u32 (s.power_config.tx_internal_sec * 1000))

/-- The function `lorawan_transceive`. The calls `LMIC_setDrTxpow` and
`lorawan_reset_tx_stats` write only to the radio stack's own record. -/
def lorawan_transceive {F P : Type} (c : hardware_facts) (fo : float_ops F)
    (ops : DataPacket_ops F P) (inp : tick_inputs F) (s : lorawan_state) : tick_result :=
  let s1 := os_runloop_once c inp.runloop_callbacks s
  if tx_gate_open inp.millis_gate s1 then
    let s2 := lorawan_prepare_uplink_transmission c fo ops inp.uplink s1
    let s3 := { s2 with last_transmision_timestamp := inp.millis_stamp }
    let err := inp.LMIC_setTxData2_strict s3.next_tx_message.port s3.next_tx_message.buf
      s3.next_tx_message.len
    let sub : tx_submission :=
      { port := s3.next_tx_message.port, buf := s3.next_tx_message.buf,
        len := s3.next_tx_message.len, err := err }
    let s4 :=
      if err = LMIC_ERROR_SUCCESS
      then { s3 with total_tx_bytes := u32 (s3.total_tx_bytes + s3.next_tx_message.len) }
      else s3
    if inp.LMIC.txrxpend then
      { state := lorawan_handle_message c inp.LMIC inp.millis_stamp
          lorawan_message.LORAWAN_EV_IDLING_BEFORE_TXRX s4,
        submitted := some sub,
        surfaced := some lorawan_message.LORAWAN_EV_IDLING_BEFORE_TXRX }
    else
      { state := lorawan_handle_message c inp.LMIC inp.millis_stamp
          lorawan_message.LORAWAN_EV_QUEUED_FOR_TX s4,
        submitted := some sub,
        surfaced := some lorawan_message.LORAWAN_EV_QUEUED_FOR_TX }
  else
    { state := s1, submitted := none, surfaced := none }

/-- The states a sequence of ticks goes through, paired with the inputs of each tick:
the body of the loop in `lorawan_task_loop`, once per element. -/
def lorawan_ticks {F P : Type} (c : hardware_facts) (fo : float_ops F)
    (ops : DataPacket_ops F P) : List (tick_inputs F) → lorawan_state →
    List (tick_inputs F × tick_result)
  | [], _ => []
  | inp :: rest, s =>
    let r := lorawan_transceive c fo ops inp s
    (inp, r) :: lorawan_ticks c fo ops rest r.state

/-- The variables after a sequence of ticks. -/
def lorawan_after_ticks {F P : Type} (c : hardware_facts) (fo : float_ops F)
    (ops : DataPacket_ops F P) : List (tick_inputs F) → lorawan_state → lorawan_state
  | [], s => s
  | inp :: rest, s => lorawan_after_ticks c fo ops rest (lorawan_transceive c fo ops inp s).state

/-! ## Concrete instances for evaluating the model -/

/-- Exact integer arithmetic as an instance of `float_ops`, for evaluating the model on
concrete readings (a reading in tenths of a unit, say). -/
def int_float_ops : float_ops Int :=
  { zero := 0,
    is_zero := fun x => x == 0,
    add := fun x y => x + y,
    div_int := fun x k => x / k,
    to_int := fun x => x }

/-- The `width` low-order bytes of `value`, most significant first. -/
def integer_bytes (value : Int) (width : Nat) : List Nat :=
  (List.range width).map (fun k => (value / 256 ^ (width - 1 - k) % 256).toNat)

/-- Modelled from the spec: the `DataPacket` class, whose source is not among the files.
An append-only byte sequence: the integer writer appends `width` bytes and the compact
float writer 4 bytes, and `cursor` is the number of bytes written. -/
def byte_packet_ops : DataPacket_ops Int (List Nat) :=
  { create := fun _ => [],
    writeInteger := fun p value width => p ++ integer_bytes value width,
    write32BitDouble := fun p value => p ++ integer_bytes value 4,
    content := fun p i => p.getD i 0,
    cursor := fun p => p.length }

/-- A choice of values for the macros, for evaluating the model on concrete inputs. -/
def sample_facts : hardware_facts :=
  { LORAWAN_MAX_MESSAGE_LEN := 41,
    LORAWAN_PORT_STATUS_SENSOR := 112,
    LORAWAN_PORT_GPS_WIFI := 116,
    LORAWAN_PORT_MESSAGE := 129,
    LORAWAN_PORT_COMMAND := 142,
    OLED_PAGE_TX_COMMAND := 7,
    OLED_PAGE_TX_MESSAGE := 8,
    WIFI_MAX_CHANNEL_NUM := 14,
    WIFI_RSSI_FLOOR := -100,
    BLUETOOTH_RSSI_FLOOR := -100 }

/-- A message record as `memset` leaves it in `lorawan_setup`. -/
def zero_message : lorawan_message_buf_t :=
  { buf := fun _ => 0, len := 0, port := 0, timestamp_millis := 0 }

/-- The variables of `lorawan.cpp` after `lorawan_setup`, with a minimum transmission
interval of `tx_internal_sec` seconds. -/
def boot_state (tx_internal_sec : Nat) : lorawan_state :=
  { total_tx_bytes := 0,
    total_rx_bytes := 0,
    next_tx_message := zero_message,
    last_rx_message := zero_message,
    power_config := { power_dbm := 14, spreading_factor := 7, tx_internal_sec := tx_internal_sec },
    last_transmision_timestamp := 0,
    tx_counter := 0 }

/-- The variables of `wifi.cpp` after `wifi_setup`. -/
def wifi_boot_state (c : hardware_facts) : wifi_state :=
  { is_powered_on := true,
    round_num := 0,
    channel_num := 1,
    pkt_counter := 0,
    channel_pkt_counter := fun _ => 0,
    last_loudest_sender := fun _ => 0,
    loudest_sender := fun _ => 0,
    last_loudest_rssi := c.WIFI_RSSI_FLOOR,
    loudest_rssi := c.WIFI_RSSI_FLOOR,
    last_loudest_channel := 0,
    loudest_channel := 0 }

/-- Collaborator values with nothing to report: no sensor record, no GPS fix, no sender
heard, no pending text, and the display on page `page`. -/
def quiet_uplink (now : Nat) (page : Int) : uplink_inputs Int :=
  { millis := now,
    power_uptime_sec := 0,
    heap_size := 0,
    free_heap := 0,
    power := { is_usb_power_available := false, is_batt_charging := false,
               batt_millivolt := 0, power_draw_milliamp := 0 },
    env := { temp_celcius := 0, humidity_pct := 0, pressure_hpa := 0, altitude_metre := 0 },
    gps := { latitude := 0, longitude := 0, speed_kmh := 0, heading_deg := 0,
             altitude_metre := 0, pos_age_sec := 0, hdop := 0, satellites := 0 },
    wifi := wifi_boot_state sample_facts,
    bluetooth_total_num_devices := 0,
    bluetooth_loudest_sender := { getRSSI := 0, haveRSSI := false, address := fun _ => 0 },
    morse_message_buf := [],
    oled_last_morse_input_page_num := 0,
    oled_page_number := page }

/-- The `LMIC` record with no downlink data and no pending operation. -/
def idle_lmic : lmic_t :=
  { ack := false, txrxpend := false, dataLen := 0, dataBeg := 0, frame := fun _ => 0 }

/-- A tick during which the radio stack makes no callback, every clock read returns
`now`, the display shows page `page` and the send primitive returns `err`. -/
def quiet_tick (now : Nat) (page : Int) (err : Int) : tick_inputs Int :=
  { runloop_callbacks := [],
    millis_gate := now,
    uplink := quiet_uplink now page,
    millis_stamp := now,
    LMIC_setTxData2_strict := fun _ _ _ => err,
    LMIC := idle_lmic }

/-! ## Properties of a run of ticks -/

/-- The clock values a sequence of ticks reads for the rate limit, in the order they are
read: per tick the value tested by the gate, then the value stored at an attempt. -/
def clock_readings {F : Type} : List (tick_inputs F) → List Nat
  | [] => []
  | inp :: rest => inp.millis_gate :: inp.millis_stamp :: clock_readings rest

/-- A tick attempted a transmission when it called the send primitive. -/
def attempted (r : tick_result) : Bool := r.submitted.isSome

/-- A tick made a submission that the send primitive accepted. -/
def tx_succeeded (r : tick_result) : Bool :=
  match r.submitted with
  | some sub => decide (sub.err = LMIC_ERROR_SUCCESS)
  | none => false

/-- Of any two ticks of the run that attempt a transmission, the later one tests the
gate at least `gap` milliseconds after the time the earlier one stored. -/
def attempts_spaced {F : Type} (gap : Nat) (run : List (tick_inputs F × tick_result)) : Prop :=
  run.Pairwise (fun a b => attempted a.2 = true → attempted b.2 = true →
    a.1.millis_stamp + gap ≤ b.1.millis_gate)

/-- The round counter and the previous-round signal strength and channel agree in two
states of the scanner. -/
def wifi_round_fields_eq (a b : wifi_state) : Prop :=
  a.round_num = b.round_num ∧ a.last_loudest_rssi = b.last_loudest_rssi
    ∧ a.last_loudest_channel = b.last_loudest_channel

/-- An `LMIC` record reporting a downlink of 60 bytes that starts at offset 9 of the
frame, whose byte at index `i` is `i`. -/
def lmic_60_bytes : lmic_t :=
  { ack := false, txrxpend := false, dataLen := 60, dataBeg := 9, frame := fun i => i }

/-- The variables of `lorawan.cpp` in the third slot of the rotation: two transmissions
completed, the last attempt made at 1000 ms, and the three-byte payload of kind 1 that
was sent then still pending. -/
def state_with_pending : lorawan_state :=
  { boot_state 60 with
    total_tx_bytes := 29,
    next_tx_message :=
      { buf := fun i => i + 1, len := 3, port := sample_facts.LORAWAN_PORT_GPS_WIFI,
        timestamp_millis := 1500 },
    last_transmision_timestamp := 1000,
    tx_counter := 2 }

/-! ## Frame lemmas: what each function leaves alone -/

theorem u32_of_lt {x : Nat} (h : x < 2 ^ 32) : u32 x = x := by
  unfold u32; omega

theorem u32_sub_of_le {a b : Nat} (hab : b ≤ a) (ha : a < 2 ^ 32) : u32_sub a b = a - b := by
  unfold u32_sub; omega

@[simp] theorem handle_message_last_tx (c : hardware_facts) (LMIC : lmic_t) (now : Nat)
    (m : lorawan_message) (s : lorawan_state) :
    (lorawan_handle_message c LMIC now m s).last_transmision_timestamp
      = s.last_transmision_timestamp := by
  cases m <;> simp only [lorawan_handle_message]
  split <;> rfl

@[simp] theorem handle_message_power_config (c : hardware_facts) (LMIC : lmic_t) (now : Nat)
    (m : lorawan_message) (s : lorawan_state) :
    (lorawan_handle_message c LMIC now m s).power_config = s.power_config := by
  cases m <;> simp only [lorawan_handle_message]
  split <;> rfl

@[simp] theorem handle_message_total_tx (c : hardware_facts) (LMIC : lmic_t) (now : Nat)
    (m : lorawan_message) (s : lorawan_state) :
    (lorawan_handle_message c LMIC now m s).total_tx_bytes = s.total_tx_bytes := by
  cases m <;> simp only [lorawan_handle_message]
  split <;> rfl

@[simp] theorem handle_message_next_tx (c : hardware_facts) (LMIC : lmic_t) (now : Nat)
    (m : lorawan_message) (s : lorawan_state) :
    (lorawan_handle_message c LMIC now m s).next_tx_message = s.next_tx_message := by
  cases m <;> simp only [lorawan_handle_message]
  split <;> rfl

@[simp] theorem handle_message_tx_counter (c : hardware_facts) (LMIC : lmic_t) (now : Nat)
    (m : lorawan_message) (s : lorawan_state) :
    (lorawan_handle_message c LMIC now m s).tx_counter = s.tx_counter := by
  cases m <;> simp only [lorawan_handle_message]
  split <;> rfl

@[simp] theorem onEvent_last_tx (c : hardware_facts) (LMIC : lmic_t) (now_tx now_rx : Nat)
    (event : ev_t) (s : lorawan_state) :
    (onEvent c LMIC now_tx now_rx event s).last_transmision_timestamp = s.last_transmision_timestamp := by
  cases event <;> simp [onEvent]
  split_ifs <;> simp

@[simp] theorem onEvent_power_config (c : hardware_facts) (LMIC : lmic_t) (now_tx now_rx : Nat)
    (event : ev_t) (s : lorawan_state) :
    (onEvent c LMIC now_tx now_rx event s).power_config = s.power_config := by
  cases event <;> simp [onEvent]
  split_ifs <;> simp

@[simp] theorem onEvent_total_tx (c : hardware_facts) (LMIC : lmic_t) (now_tx now_rx : Nat)
    (event : ev_t) (s : lorawan_state) :
    (onEvent c LMIC now_tx now_rx event s).total_tx_bytes = s.total_tx_bytes := by
  cases event <;> simp [onEvent]
  split_ifs <;> simp

@[simp] theorem onEvent_next_buf (c : hardware_facts) (LMIC : lmic_t) (now_tx now_rx : Nat)
    (event : ev_t) (s : lorawan_state) :
    (onEvent c LMIC now_tx now_rx event s).next_tx_message.buf = s.next_tx_message.buf := by
  cases event <;> simp [onEvent]
  split_ifs <;> simp

@[simp] theorem onEvent_next_len (c : hardware_facts) (LMIC : lmic_t) (now_tx now_rx : Nat)
    (event : ev_t) (s : lorawan_state) :
    (onEvent c LMIC now_tx now_rx event s).next_tx_message.len = s.next_tx_message.len := by
  cases event <;> simp [onEvent]
  split_ifs <;> simp

@[simp] theorem onEvent_next_port (c : hardware_facts) (LMIC : lmic_t) (now_tx now_rx : Nat)
    (event : ev_t) (s : lorawan_state) :
    (onEvent c LMIC now_tx now_rx event s).next_tx_message.port = s.next_tx_message.port := by
  cases event <;> simp [onEvent]
  split_ifs <;> simp

@[simp] theorem os_runloop_once_last_tx (c : hardware_facts) (callbacks : List lmic_callback)
    (s : lorawan_state) :
    (os_runloop_once c callbacks s).last_transmision_timestamp = s.last_transmision_timestamp := by
  unfold os_runloop_once
  induction callbacks generalizing s with
  | nil => rfl
  | cons cb rest ih => rw [List.foldl_cons, ih]; simp

@[simp] theorem os_runloop_once_power_config (c : hardware_facts) (callbacks : List lmic_callback)
    (s : lorawan_state) :
    (os_runloop_once c callbacks s).power_config = s.power_config := by
  unfold os_runloop_once
  induction callbacks generalizing s with
  | nil => rfl
  | cons cb rest ih => rw [List.foldl_cons, ih]; simp

@[simp] theorem os_runloop_once_total_tx (c : hardware_facts) (callbacks : List lmic_callback)
    (s : lorawan_state) :
    (os_runloop_once c callbacks s).total_tx_bytes = s.total_tx_bytes := by
  unfold os_runloop_once
  induction callbacks generalizing s with
  | nil => rfl
  | cons cb rest ih => rw [List.foldl_cons, ih]; simp

@[simp] theorem os_runloop_once_next_buf (c : hardware_facts) (callbacks : List lmic_callback)
    (s : lorawan_state) :
    (os_runloop_once c callbacks s).next_tx_message.buf = s.next_tx_message.buf := by
  unfold os_runloop_once
  induction callbacks generalizing s with
  | nil => rfl
  | cons cb rest ih => rw [List.foldl_cons, ih]; simp

@[simp] theorem os_runloop_once_next_len (c : hardware_facts) (callbacks : List lmic_callback)
    (s : lorawan_state) :
    (os_runloop_once c callbacks s).next_tx_message.len = s.next_tx_message.len := by
  unfold os_runloop_once
  induction callbacks generalizing s with
  | nil => rfl
  | cons cb rest ih => rw [List.foldl_cons, ih]; simp

@[simp] theorem os_runloop_once_next_port (c : hardware_facts) (callbacks : List lmic_callback)
    (s : lorawan_state) :
    (os_runloop_once c callbacks s).next_tx_message.port = s.next_tx_message.port := by
  unfold os_runloop_once
  induction callbacks generalizing s with
  | nil => rfl
  | cons cb rest ih => rw [List.foldl_cons, ih]; simp

@[simp] theorem set_next_transmission_last_tx (c : hardware_facts) (buf : Nat → Nat)
    (len : Nat) (port : Int) (s : lorawan_state) :
    (lorawan_set_next_transmission c buf len port s).last_transmision_timestamp
      = s.last_transmision_timestamp := rfl

@[simp] theorem set_next_transmission_power_config (c : hardware_facts) (buf : Nat → Nat)
    (len : Nat) (port : Int) (s : lorawan_state) :
    (lorawan_set_next_transmission c buf len port s).power_config = s.power_config := rfl

@[simp] theorem set_next_transmission_total_tx (c : hardware_facts) (buf : Nat → Nat)
    (len : Nat) (port : Int) (s : lorawan_state) :
    (lorawan_set_next_transmission c buf len port s).total_tx_bytes = s.total_tx_bytes := rfl

@[simp] theorem prepare_last_tx {F P : Type} (c : hardware_facts) (fo : float_ops F)
    (ops : DataPacket_ops F P) (inp : uplink_inputs F) (s : lorawan_state) :
    (lorawan_prepare_uplink_transmission c fo ops inp s).last_transmision_timestamp
      = s.last_transmision_timestamp := by
  simp only [lorawan_prepare_uplink_transmission]
  split_ifs <;> rfl

@[simp] theorem prepare_power_config {F P : Type} (c : hardware_facts) (fo : float_ops F)
    (ops : DataPacket_ops F P) (inp : uplink_inputs F) (s : lorawan_state) :
    (lorawan_prepare_uplink_transmission c fo ops inp s).power_config = s.power_config := by
  simp only [lorawan_prepare_uplink_transmission]
  split_ifs <;> rfl

@[simp] theorem prepare_total_tx {F P : Type} (c : hardware_facts) (fo : float_ops F)
    (ops : DataPacket_ops F P) (inp : uplink_inputs F) (s : lorawan_state) :
    (lorawan_prepare_uplink_transmission c fo ops inp s).total_tx_bytes = s.total_tx_bytes := by
  simp only [lorawan_prepare_uplink_transmission]
  split_ifs <;> rfl

theorem transceive_power_config {F P : Type} (c : hardware_facts) (fo : float_ops F)
    (ops : DataPacket_ops F P) (inp : tick_inputs F) (s : lorawan_state) :
    (lorawan_transceive c fo ops inp s).state.power_config = s.power_config := by
  simp only [lorawan_transceive]
  split_ifs <;> simp

theorem transceive_attempted_iff {F P : Type} (c : hardware_facts) (fo : float_ops F)
    (ops : DataPacket_ops F P) (inp : tick_inputs F) (s : lorawan_state) :
    attempted (lorawan_transceive c fo ops inp s) = true ↔
      (s.last_transmision_timestamp = 0 ∨
        u32 (s.power_config.tx_internal_sec * 1000)
          < u32_sub inp.millis_gate s.last_transmision_timestamp) := by
  simp only [lorawan_transceive, attempted]
  split_ifs with hg hp <;> simp [tx_gate_open] at hg ⊢ <;> exact hg

theorem transceive_last_tx {F P : Type} (c : hardware_facts) (fo : float_ops F)
    (ops : DataPacket_ops F P) (inp : tick_inputs F) (s : lorawan_state) :
    (lorawan_transceive c fo ops inp s).state.last_transmision_timestamp =
      if attempted (lorawan_transceive c fo ops inp s) = true
      then inp.millis_stamp else s.last_transmision_timestamp := by
  simp only [lorawan_transceive, attempted]
  split_ifs <;> simp_all

/-- Every attempt of a run starts either from the "never transmitted" marker or more than
the configured interval after the time stored last, provided later attempts store a
nonzero time. -/
theorem attempts_after_last {F P : Type} (c : hardware_facts) (fo : float_ops F)
    (ops : DataPacket_ops F P) (inps : List (tick_inputs F)) (s : lorawan_state)
    (hT : s.power_config.tx_internal_sec * 1000 < 2 ^ 32)
    (hmono : (clock_readings inps).Pairwise (fun a b => a ≤ b))
    (h32 : ∀ r ∈ clock_readings inps, r < 2 ^ 32)
    (hlast : ∀ r ∈ clock_readings inps, s.last_transmision_timestamp ≤ r)
    (hnz : ∀ e ∈ lorawan_ticks c fo ops inps s, attempted e.2 = true → e.1.millis_stamp ≠ 0) :
    ∀ e ∈ lorawan_ticks c fo ops inps s, attempted e.2 = true →
      s.last_transmision_timestamp = 0 ∨
        s.last_transmision_timestamp + s.power_config.tx_internal_sec * 1000
          < e.1.millis_gate := by
  induction inps generalizing s with
  | nil => intro e he; simp [lorawan_ticks] at he
  | cons inp rest ih =>
    intro e he hatt
    simp only [clock_readings, List.pairwise_cons, List.mem_cons, forall_eq_or_imp] at hmono h32 hlast
    obtain ⟨⟨hgs, -⟩, hsrest, hrest⟩ := hmono
    obtain ⟨hg32, hs32, hrest32⟩ := h32
    obtain ⟨hlg, hls, hlrest⟩ := hlast
    simp only [lorawan_ticks, List.mem_cons, forall_eq_or_imp] at he hnz
    have hhead : attempted (lorawan_transceive c fo ops inp s) = true →
        s.last_transmision_timestamp = 0 ∨
          s.last_transmision_timestamp + s.power_config.tx_internal_sec * 1000
            < inp.millis_gate := by
      intro h
      rcases (transceive_attempted_iff c fo ops inp s).1 h with h0 | hgap
      · exact Or.inl h0
      · right
        rw [u32_of_lt hT, u32_sub_of_le hlg hg32] at hgap
        omega
    rcases he with rfl | he
    · exact hhead hatt
    · have hpc := transceive_power_config c fo ops inp s
      have hl := transceive_last_tx c fo ops inp s
      have key := ih (lorawan_transceive c fo ops inp s).state (by rw [hpc]; exact hT) hrest
        hrest32
        (by
          intro r hr
          rw [hl]
          split_ifs
          · exact hsrest r hr
          · exact hlrest r hr)
        hnz.2 e he hatt
      rw [hpc, hl] at key
      by_cases ha : attempted (lorawan_transceive c fo ops inp s) = true
      · rw [if_pos ha] at key
        have hne := hnz.1 ha
        rcases hhead ha with h0 | hgap
        · exact Or.inl h0
        · right
          rcases key with k0 | k
          · exact absurd k0 hne
          · omega
      · rw [if_neg ha] at key
        exact key

theorem ticks_inputs_mem {F P : Type} (c : hardware_facts) (fo : float_ops F)
    (ops : DataPacket_ops F P) (inps : List (tick_inputs F)) (s : lorawan_state) :
    ∀ e ∈ lorawan_ticks c fo ops inps s, e.1 ∈ inps := by
  induction inps generalizing s with
  | nil => intro e he; simp [lorawan_ticks] at he
  | cons inp rest ih =>
    intro e he
    simp only [lorawan_ticks, List.mem_cons] at he ⊢
    rcases he with rfl | he
    · exact Or.inl rfl
    · exact Or.inr (ih _ e he)

/-! ## C1: duty-cycle gating -/

/-- What the gate does enforce: in a run of scheduler ticks whose 32-bit clock readings
never decrease, the gate of a later attempt is tested more than `tx_internal_sec * 1000`
ms after the time stored by any earlier attempt, however often the tick runs, as long as
no attempt of the run stores the marker value 0 as its time and `tx_internal_sec * 1000`
fits in 32 bits. -/
theorem duty_cycle_gating {F P : Type} (c : hardware_facts) (fo : float_ops F)
    (ops : DataPacket_ops F P) (inps : List (tick_inputs F)) (s : lorawan_state)
    (hT : s.power_config.tx_internal_sec * 1000 < 2 ^ 32)
    (hmono : (clock_readings inps).Pairwise (fun a b => a ≤ b))
    (h32 : ∀ r ∈ clock_readings inps, r < 2 ^ 32)
    (hnz : ∀ e ∈ lorawan_ticks c fo ops inps s, attempted e.2 = true → e.1.millis_stamp ≠ 0) :
    attempts_spaced (s.power_config.tx_internal_sec * 1000 + 1)
      (lorawan_ticks c fo ops inps s) := by
  unfold attempts_spaced
  induction inps generalizing s with
  | nil => simp [lorawan_ticks]
  | cons inp rest ih =>
    simp only [clock_readings, List.pairwise_cons, List.mem_cons, forall_eq_or_imp] at hmono h32
    obtain ⟨-, hsrest, hrest⟩ := hmono
    obtain ⟨-, -, hrest32⟩ := h32
    simp only [lorawan_ticks, List.mem_cons, forall_eq_or_imp] at hnz
    have hpc := transceive_power_config c fo ops inp s
    have hl := transceive_last_tx c fo ops inp s
    simp only [lorawan_ticks, List.pairwise_cons]
    constructor
    · intro b hb ha hbatt
      have key := attempts_after_last c fo ops rest (lorawan_transceive c fo ops inp s).state
        (by rw [hpc]; exact hT) hrest hrest32
        (by intro r hr; rw [hl, if_pos ha]; exact hsrest r hr) hnz.2 b hb hbatt
      rw [hpc, hl, if_pos ha] at key
      rcases key with k0 | k
      · exact absurd k0 (hnz.1 ha)
      · omega
    · have := ih (lorawan_transceive c fo ops inp s).state (by rw [hpc]; exact hT) hrest
        hrest32 hnz.2
      rw [hpc] at this
      exact this

/-- The gate on a concrete run: interval 60 s, ticks at 5 ms, 6 ms, 30000 ms and 70000 ms.
The first and the last tick attempt a transmission, the two in between do not. -/
theorem duty_cycle_gating_witness :
    attempts_spaced (60 * 1000 + 1)
        (lorawan_ticks sample_facts int_float_ops byte_packet_ops
          [quiet_tick 5 0 0, quiet_tick 6 0 0, quiet_tick 30000 0 0, quiet_tick 70000 0 0]
          (boot_state 60))
    ∧ (lorawan_ticks sample_facts int_float_ops byte_packet_ops
          [quiet_tick 5 0 0, quiet_tick 6 0 0, quiet_tick 30000 0 0, quiet_tick 70000 0 0]
          (boot_state 60)).map (fun e => attempted e.2) = [true, false, false, true] := by
  refine ⟨duty_cycle_gating sample_facts int_float_ops byte_packet_ops
      [quiet_tick 5 0 0, quiet_tick 6 0 0, quiet_tick 30000 0 0, quiet_tick 70000 0 0]
      (boot_state 60) (by decide) (by simp [clock_readings, quiet_tick])
      (by simp [clock_readings, quiet_tick]) ?_, ?_⟩
  · intro e he _
    have := ticks_inputs_mem _ _ _ _ _ e he
    simp only [List.mem_cons, List.mem_singleton, List.not_mem_nil, or_false] at this
    rcases this with h | h | h | h <;> rw [h] <;> simp [quiet_tick]
  · decide

/-! ## C2: the channel-hop wrap -/

theorem wifi_frame_keeps (type : wifi_promiscuous_pkt_type_t) (rssi : Int) (channel : Nat)
    (addr2 : Fin 6 → Nat) (s : wifi_state) :
    (wifi_sniffer_packet_handler type rssi channel addr2 s).channel_num = s.channel_num
      ∧ wifi_round_fields_eq (wifi_sniffer_packet_handler type rssi channel addr2 s) s := by
  simp only [wifi_sniffer_packet_handler, wifi_round_fields_eq]
  split_ifs <;> simp

@[simp] theorem store_keeps_channel_num (c : hardware_facts) (idx value : Nat) (s : wifi_state) :
    (store_channel_pkt_counter c idx value s).channel_num = s.channel_num := by
  unfold store_channel_pkt_counter
  split_ifs <;> rfl

@[simp] theorem store_keeps_round_num (c : hardware_facts) (idx value : Nat) (s : wifi_state) :
    (store_channel_pkt_counter c idx value s).round_num = s.round_num := by
  unfold store_channel_pkt_counter
  split_ifs <;> rfl

@[simp] theorem store_keeps_pkt_counter (c : hardware_facts) (idx value : Nat) (s : wifi_state) :
    (store_channel_pkt_counter c idx value s).pkt_counter = s.pkt_counter := by
  unfold store_channel_pkt_counter
  split_ifs <;> rfl

@[simp] theorem store_keeps_last_loudest_rssi (c : hardware_facts) (idx value : Nat) (s : wifi_state) :
    (store_channel_pkt_counter c idx value s).last_loudest_rssi = s.last_loudest_rssi := by
  unfold store_channel_pkt_counter
  split_ifs <;> rfl

@[simp] theorem store_keeps_last_loudest_channel (c : hardware_facts) (idx value : Nat) (s : wifi_state) :
    (store_channel_pkt_counter c idx value s).last_loudest_channel = s.last_loudest_channel := by
  unfold store_channel_pkt_counter
  split_ifs <;> rfl

@[simp] theorem store_keeps_loudest_rssi (c : hardware_facts) (idx value : Nat) (s : wifi_state) :
    (store_channel_pkt_counter c idx value s).loudest_rssi = s.loudest_rssi := by
  unfold store_channel_pkt_counter
  split_ifs <;> rfl

@[simp] theorem store_keeps_loudest_channel (c : hardware_facts) (idx value : Nat) (s : wifi_state) :
    (store_channel_pkt_counter c idx value s).loudest_channel = s.loudest_channel := by
  unfold store_channel_pkt_counter
  split_ifs <;> rfl

@[simp] theorem store_keeps_loudest_sender (c : hardware_facts) (idx value : Nat) (s : wifi_state) :
    (store_channel_pkt_counter c idx value s).loudest_sender = s.loudest_sender := by
  unfold store_channel_pkt_counter
  split_ifs <;> rfl

theorem store_inside_keeps_last_sender (c : hardware_facts) (idx value : Nat) (s : wifi_state)
    (h : idx ≠ c.WIFI_MAX_CHANNEL_NUM) :
    (store_channel_pkt_counter c idx value s).last_loudest_sender = s.last_loudest_sender := by
  unfold store_channel_pkt_counter
  rw [if_neg h]

theorem wifi_advance_inside (c : hardware_facts) (s : wifi_state)
    (hN32 : c.WIFI_MAX_CHANNEL_NUM + 1 < 2 ^ 32)
    (hch : s.channel_num + 1 ≤ c.WIFI_MAX_CHANNEL_NUM) :
    wifi_advance_channel c s = { s with channel_num := s.channel_num + 1 } := by
  have h : u32 (s.channel_num + 1) = s.channel_num + 1 := u32_of_lt (by omega)
  simp only [wifi_advance_channel, h]
  rw [if_neg (by omega)]

theorem wifi_advance_wrap (c : hardware_facts) (s : wifi_state)
    (hN32 : c.WIFI_MAX_CHANNEL_NUM + 1 < 2 ^ 32)
    (hch : s.channel_num = c.WIFI_MAX_CHANNEL_NUM) :
    wifi_advance_channel c s =
      { s with
        channel_num := 1,
        round_num := u32 (s.round_num + 1),
        last_loudest_rssi := s.loudest_rssi,
        last_loudest_channel := s.loudest_channel,
        last_loudest_sender := s.loudest_sender,
        loudest_rssi := c.WIFI_RSSI_FLOOR,
        loudest_channel := 0,
        loudest_sender := fun _ => 0 } := by
  have h : u32 (s.channel_num + 1) = s.channel_num + 1 := u32_of_lt (by omega)
  simp only [wifi_advance_channel, h]
  rw [if_pos (by omega)]

theorem wifi_hop_body_unfold (c : hardware_facts) (s : wifi_state) (idx value : Nat) :
    ∃ t : wifi_state,
      (let s1 := store_channel_pkt_counter c idx value s
       let s2 := { s1 with pkt_counter := 0 }
       let s4 := wifi_advance_channel c s2
       store_channel_pkt_counter c s4.channel_num 0 s4)
          = store_channel_pkt_counter c (wifi_advance_channel c t).channel_num 0
              (wifi_advance_channel c t)
        ∧ t.channel_num = s.channel_num ∧ t.round_num = s.round_num
        ∧ t.last_loudest_rssi = s.last_loudest_rssi
        ∧ t.last_loudest_channel = s.last_loudest_channel
        ∧ t.loudest_rssi = s.loudest_rssi ∧ t.loudest_channel = s.loudest_channel
        ∧ t.loudest_sender = s.loudest_sender := by
  refine ⟨{ store_channel_pkt_counter c idx value s with pkt_counter := 0 }, rfl,
    ?_, ?_, ?_, ?_, ?_, ?_, ?_⟩
  · exact store_keeps_channel_num c idx value s
  · exact store_keeps_round_num c idx value s
  · exact store_keeps_last_loudest_rssi c idx value s
  · exact store_keeps_last_loudest_channel c idx value s
  · exact store_keeps_loudest_rssi c idx value s
  · exact store_keeps_loudest_channel c idx value s
  · exact store_keeps_loudest_sender c idx value s

theorem wifi_next_channel_unfold (c : hardware_facts) (s : wifi_state) :
    ∃ t : wifi_state,
      wifi_next_channel c s
          = store_channel_pkt_counter c (wifi_advance_channel c t).channel_num 0
              (wifi_advance_channel c t)
        ∧ t.channel_num = s.channel_num ∧ t.round_num = s.round_num
        ∧ t.last_loudest_rssi = s.last_loudest_rssi
        ∧ t.last_loudest_channel = s.last_loudest_channel
        ∧ t.loudest_rssi = s.loudest_rssi ∧ t.loudest_channel = s.loudest_channel
        ∧ t.loudest_sender = s.loudest_sender :=
  wifi_hop_body_unfold c s (u32_sub s.channel_num 1) s.pkt_counter

theorem wifi_hop_inside (c : hardware_facts) (s : wifi_state)
    (hN32 : c.WIFI_MAX_CHANNEL_NUM + 1 < 2 ^ 32)
    (hch : s.channel_num + 1 ≤ c.WIFI_MAX_CHANNEL_NUM) :
    (wifi_next_channel c s).channel_num = s.channel_num + 1
      ∧ wifi_round_fields_eq (wifi_next_channel c s) s := by
  obtain ⟨t, ht, h1, h2, h3, h4, -⟩ := wifi_next_channel_unfold c s
  rw [ht, wifi_advance_inside c t hN32 (by omega)]
  simp [wifi_round_fields_eq, h1, h2, h3, h4]

theorem wifi_hop_wrap (c : hardware_facts) (s : wifi_state)
    (hN32 : c.WIFI_MAX_CHANNEL_NUM + 1 < 2 ^ 32)
    (hch : s.channel_num = c.WIFI_MAX_CHANNEL_NUM) :
    (wifi_next_channel c s).channel_num = 1
      ∧ (wifi_next_channel c s).round_num = u32 (s.round_num + 1)
      ∧ (wifi_next_channel c s).loudest_rssi = c.WIFI_RSSI_FLOOR
      ∧ (wifi_next_channel c s).loudest_channel = 0
      ∧ (wifi_next_channel c s).loudest_sender = (fun _ => 0)
      ∧ (wifi_next_channel c s).last_loudest_rssi = s.loudest_rssi
      ∧ (wifi_next_channel c s).last_loudest_channel = s.loudest_channel
      ∧ (2 ≤ c.WIFI_MAX_CHANNEL_NUM →
          (wifi_next_channel c s).last_loudest_sender = s.loudest_sender) := by
  obtain ⟨t, ht, h1, h2, -, -, h5, h6, h7⟩ := wifi_next_channel_unfold c s
  rw [ht, wifi_advance_wrap c t hN32 (by omega)]
  refine ⟨by simp, by simp [h2], by simp, by simp, by simp, by simp [h5], by simp [h6], ?_⟩
  intro hN
  rw [store_inside_keeps_last_sender _ _ _ _ (by simp only []; omega)]
  exact h7

theorem wifi_run_inside (c : hardware_facts) (steps : List wifi_step) (s : wifi_state)
    (hN32 : c.WIFI_MAX_CHANNEL_NUM + 1 < 2 ^ 32)
    (hch : s.channel_num + wifi_hops steps ≤ c.WIFI_MAX_CHANNEL_NUM) :
    (wifi_run c steps s).channel_num = s.channel_num + wifi_hops steps
      ∧ wifi_round_fields_eq (wifi_run c steps s) s := by
  induction steps generalizing s with
  | nil => simp [wifi_run, wifi_hops, wifi_round_fields_eq]
  | cons st rest ih =>
    cases st with
    | hop =>
      simp only [wifi_hops] at hch
      obtain ⟨h1, h2⟩ := wifi_hop_inside c s hN32 (by omega)
      obtain ⟨h3, h4⟩ := ih (wifi_next_channel c s) (by omega)
      simp only [wifi_run, List.foldl_cons, wifi_do_step, wifi_hops] at h3 h4 ⊢
      refine ⟨by omega, ?_⟩
      simp only [wifi_round_fields_eq] at h2 h4 ⊢
      simp only [h4, h2, and_self]
    | frame type rssi channel addr2 =>
      simp only [wifi_hops] at hch
      obtain ⟨h1, h2⟩ := wifi_frame_keeps type rssi channel addr2 s
      obtain ⟨h3, h4⟩ := ih (wifi_sniffer_packet_handler type rssi channel addr2 s) (by omega)
      simp only [wifi_run, List.foldl_cons, wifi_do_step, wifi_hops] at h3 h4 ⊢
      refine ⟨by omega, ?_⟩
      simp only [wifi_round_fields_eq] at h2 h4 ⊢
      simp only [h4, h2, and_self]

theorem wifi_hops_take_le (steps : List wifi_step) (k : Nat) :
    wifi_hops (steps.take k) ≤ wifi_hops steps := by
  induction steps generalizing k with
  | nil => simp [wifi_hops]
  | cons st rest ih =>
    cases k with
    | zero => simp [wifi_hops]
    | succ k =>
      have := ih k
      cases st <;> simp only [List.take_succ_cons, wifi_hops] <;> omega

/-- What a round does keep, with at least two channels: from `channel_num = 1`, after
`WIFI_MAX_CHANNEL_NUM - 1` hop ticks with frames interleaved, the next hop tick leaves
`channel_num = 1`, raises `round_num` by 1 (below the 32-bit maximum), resets the
current-round fields and copies them to the previous-round fields; before that call the
round counter and the previous-round signal strength and channel are unchanged. The
previous-round address is not among the fields kept before the wrapping call. -/
theorem wifi_round_kept_fields (c : hardware_facts) (s : wifi_state) (steps : List wifi_step)
    (hN : 2 ≤ c.WIFI_MAX_CHANNEL_NUM) (hN32 : c.WIFI_MAX_CHANNEL_NUM + 1 < 2 ^ 32)
    (hround : s.round_num + 1 < 2 ^ 32)
    (hstart : s.channel_num = 1)
    (hhops : wifi_hops steps = c.WIFI_MAX_CHANNEL_NUM - 1) :
    (wifi_next_channel c (wifi_run c steps s)).channel_num = 1
      ∧ (wifi_next_channel c (wifi_run c steps s)).round_num = s.round_num + 1
      ∧ (wifi_next_channel c (wifi_run c steps s)).loudest_rssi = c.WIFI_RSSI_FLOOR
      ∧ (wifi_next_channel c (wifi_run c steps s)).loudest_channel = 0
      ∧ (wifi_next_channel c (wifi_run c steps s)).loudest_sender = (fun _ => 0)
      ∧ (wifi_next_channel c (wifi_run c steps s)).last_loudest_rssi
          = (wifi_run c steps s).loudest_rssi
      ∧ (wifi_next_channel c (wifi_run c steps s)).last_loudest_channel
          = (wifi_run c steps s).loudest_channel
      ∧ (wifi_next_channel c (wifi_run c steps s)).last_loudest_sender
          = (wifi_run c steps s).loudest_sender
      ∧ ∀ k, (wifi_run c (steps.take k) s).round_num = s.round_num
          ∧ (wifi_run c (steps.take k) s).last_loudest_rssi = s.last_loudest_rssi
          ∧ (wifi_run c (steps.take k) s).last_loudest_channel = s.last_loudest_channel := by
  obtain ⟨hch, hkeep⟩ := wifi_run_inside c steps s hN32 (by omega)
  obtain ⟨w1, w2, w3, w4, w5, w6, w7, w8⟩ :=
    wifi_hop_wrap c (wifi_run c steps s) hN32 (by omega)
  have hr : (wifi_run c steps s).round_num = s.round_num := hkeep.1
  rw [hr, u32_of_lt hround] at w2
  refine ⟨w1, w2, w3, w4, w5, w6, w7, w8 hN, ?_⟩
  intro k
  have hk := wifi_hops_take_le steps k
  exact (wifi_run_inside c (steps.take k) s hN32 (by omega)).2

theorem rx_copy_loop_inside (frame : Nat → Nat) (dataBeg n : Nat) (buf : Nat → Nat) (i : Nat)
    (hi : i < n) : rx_copy_loop frame dataBeg n buf i = frame (dataBeg + i) := by
  induction n with
  | zero => omega
  | succ n ih =>
    simp only [rx_copy_loop]
    by_cases h : i = n
    · subst h; simp
    · rw [Function.update_noteq h]
      exact ih (by omega)

/-- C3. When `lorawan_handle_message(LORAWAN_EV_RESPONSE)` runs with a reported length
`n = LMIC.dataLen > 0`, the last-received message afterwards has
`len = min n LORAWAN_MAX_MESSAGE_LEN` and `buf[i] = LMIC.frame[LMIC.dataBeg + i]` for every
`i < len`: bytes beyond the maximum are dropped. With `n = 0` the last-received message
is left as it was. -/
theorem rx_truncation (c : hardware_facts) (LMIC : lmic_t) (now : Nat) (s : lorawan_state) :
    (0 < LMIC.dataLen.val →
      (lorawan_get_last_reception (lorawan_handle_message c LMIC now
          lorawan_message.LORAWAN_EV_RESPONSE s)).len
        = min LMIC.dataLen.val c.LORAWAN_MAX_MESSAGE_LEN
      ∧ ∀ i, i < min LMIC.dataLen.val c.LORAWAN_MAX_MESSAGE_LEN →
          (lorawan_get_last_reception (lorawan_handle_message c LMIC now
              lorawan_message.LORAWAN_EV_RESPONSE s)).buf i
            = LMIC.frame (LMIC.dataBeg.val + i))
    ∧ (LMIC.dataLen.val = 0 →
        lorawan_get_last_reception (lorawan_handle_message c LMIC now
            lorawan_message.LORAWAN_EV_RESPONSE s)
          = lorawan_get_last_reception s) := by
  constructor
  · intro hn
    have hmin : (if c.LORAWAN_MAX_MESSAGE_LEN < LMIC.dataLen.val
        then c.LORAWAN_MAX_MESSAGE_LEN else LMIC.dataLen.val)
        = min LMIC.dataLen.val c.LORAWAN_MAX_MESSAGE_LEN := by
      split_ifs <;> omega
    simp only [lorawan_handle_message, lorawan_get_last_reception, gt_iff_lt, hn, if_true]
    simp only [hmin, true_and]
    intro i hi
    rw [Function.update_noteq (by omega)]
    exact rx_copy_loop_inside _ _ _ _ _ hi
  · intro h0
    simp [lorawan_handle_message, lorawan_get_last_reception, h0]

/-- C3, on the example of the specification: 60 bytes arrive while the maximum is 41. The
stored message has length 41 and holds the first 41 received bytes. -/
theorem rx_truncation_witness :
    (lorawan_get_last_reception (lorawan_handle_message sample_facts lmic_60_bytes 1234
        lorawan_message.LORAWAN_EV_RESPONSE (boot_state 60))).len = 41
    ∧ ∀ i, i < 41 →
        (lorawan_get_last_reception (lorawan_handle_message sample_facts lmic_60_bytes 1234
          lorawan_message.LORAWAN_EV_RESPONSE (boot_state 60))).buf i = 9 + i :=
  (rx_truncation sample_facts lmic_60_bytes 1234 (boot_state 60)).1 (by decide)

/-! ## C4: accounting of transmitted bytes -/

theorem transceive_total_tx {F P : Type} (c : hardware_facts) (fo : float_ops F)
    (ops : DataPacket_ops F P) (inp : tick_inputs F) (s : lorawan_state) :
    (lorawan_transceive c fo ops inp s).state.total_tx_bytes =
      if tx_succeeded (lorawan_transceive c fo ops inp s) = true
      then u32 (s.total_tx_bytes + (lorawan_transceive c fo ops inp s).state.next_tx_message.len)
      else s.total_tx_bytes := by
  simp only [lorawan_transceive, tx_succeeded]
  split_ifs <;> simp_all

/-- C4. A tick that does not attempt a send, and a tick whose submission the send
primitive rejects, leave `total_tx_bytes` as it was; a tick whose submission succeeds adds
exactly `next_tx_message.len` (as long as the 32-bit counter does not wrap). Hence after
any run of ticks without a successful submission, for instance two failed attempts in a
row, `lorawan_get_total_tx_bytes()` is unchanged. -/
theorem tx_bytes_accounting {F P : Type} (c : hardware_facts) (fo : float_ops F)
    (ops : DataPacket_ops F P) (s : lorawan_state) :
    (∀ inp : tick_inputs F,
      (attempted (lorawan_transceive c fo ops inp s) = false →
        (lorawan_transceive c fo ops inp s).state.total_tx_bytes = s.total_tx_bytes)
      ∧ (attempted (lorawan_transceive c fo ops inp s) = true →
          tx_succeeded (lorawan_transceive c fo ops inp s) = false →
          (lorawan_transceive c fo ops inp s).state.total_tx_bytes = s.total_tx_bytes)
      ∧ (tx_succeeded (lorawan_transceive c fo ops inp s) = true →
          s.total_tx_bytes + (lorawan_transceive c fo ops inp s).state.next_tx_message.len
            < 2 ^ 32 →
          (lorawan_transceive c fo ops inp s).state.total_tx_bytes
            = s.total_tx_bytes + (lorawan_transceive c fo ops inp s).state.next_tx_message.len))
    ∧ (∀ inps : List (tick_inputs F),
        (∀ e ∈ lorawan_ticks c fo ops inps s, tx_succeeded e.2 = false) →
        lorawan_get_total_tx_bytes (lorawan_after_ticks c fo ops inps s)
          = lorawan_get_total_tx_bytes s) := by
  constructor
  · intro inp
    have h := transceive_total_tx c fo ops inp s
    refine ⟨?_, ?_, ?_⟩
    · intro ha
      have hs : tx_succeeded (lorawan_transceive c fo ops inp s) = false := by
        simp only [attempted] at ha
        unfold tx_succeeded
        cases hsub : (lorawan_transceive c fo ops inp s).submitted with
        | none => rfl
        | some sub => rw [hsub] at ha; simp at ha
      rw [h, hs]; simp
    · intro _ hs
      rw [h, hs]; simp
    · intro hs hlt
      rw [h, if_pos hs, u32_of_lt hlt]
  · intro inps
    induction inps generalizing s with
    | nil => intro _; rfl
    | cons inp rest ih =>
      intro hall
      simp only [lorawan_ticks, List.mem_cons, forall_eq_or_imp] at hall
      have h := transceive_total_tx c fo ops inp s
      rw [hall.1] at h
      simp only [lorawan_after_ticks]
      rw [ih _ hall.2]
      simpa [lorawan_get_total_tx_bytes] using h

/-- C4, on the scenario of the specification: two attempts in a row (at 5 ms and at
70000 ms, interval 60 s) that the send primitive rejects with error code -1. Both ticks
attempt, and the counter of transmitted bytes is still 0 afterwards. -/
theorem tx_bytes_accounting_witness :
    (lorawan_ticks sample_facts int_float_ops byte_packet_ops
        [quiet_tick 5 0 (-1), quiet_tick 70000 0 (-1)] (boot_state 60)).map
        (fun e => attempted e.2) = [true, true]
    ∧ lorawan_get_total_tx_bytes (lorawan_after_ticks sample_facts int_float_ops
        byte_packet_ops [quiet_tick 5 0 (-1), quiet_tick 70000 0 (-1)] (boot_state 60))
        = lorawan_get_total_tx_bytes (boot_state 60) :=
  ⟨by decide,
   (tx_bytes_accounting sample_facts int_float_ops byte_packet_ops (boot_state 60)).2
     [quiet_tick 5 0 (-1), quiet_tick 70000 0 (-1)] (by decide)⟩

/-! ## C5: rotation of the payload kind -/

/-- C5. The builder chooses by `tx_counter mod 3` alone: kind 0 commits the status and
sensor packet on port `STATUS_SENSOR`, kind 1 the GPS and WiFi packet on port `GPS_WIFI`,
kind 2 the message or command text. The kind has period 3 in the counter, and the
counts 0 to 5 select 0, 1, 2, 0, 1, 2. The callback `onEvent` raises the counter by
exactly 1 on `EV_TXCOMPLETE` (as long as the 32-bit counter does not wrap) and leaves it
alone on every other event. -/
theorem payload_kind_rotation {F P : Type} (c : hardware_facts) (fo : float_ops F)
    (ops : DataPacket_ops F P) (inp : uplink_inputs F) (s : lorawan_state) :
    (uplink_message_kind s.tx_counter = 0 →
      lorawan_prepare_uplink_transmission c fo ops inp s
        = lorawan_set_next_transmission c (ops.content (build_status_sensor c fo ops inp s))
            (ops.cursor (build_status_sensor c fo ops inp s)) c.LORAWAN_PORT_STATUS_SENSOR s)
    ∧ (uplink_message_kind s.tx_counter = 1 →
      lorawan_prepare_uplink_transmission c fo ops inp s
        = lorawan_set_next_transmission c (ops.content (build_gps_wifi c fo ops inp))
            (ops.cursor (build_gps_wifi c fo ops inp)) c.LORAWAN_PORT_GPS_WIFI s)
    ∧ (uplink_message_kind s.tx_counter = 2 →
      inp.oled_page_number ≠ c.OLED_PAGE_TX_COMMAND →
      inp.oled_page_number ≠ c.OLED_PAGE_TX_MESSAGE →
      lorawan_prepare_uplink_transmission c fo ops inp s
        = lorawan_set_next_transmission c
            (morse_copy_loop inp.morse_message_buf inp.morse_message_buf.length (fun _ => 0))
            inp.morse_message_buf.length
            (if inp.oled_last_morse_input_page_num = c.OLED_PAGE_TX_COMMAND
              then c.LORAWAN_PORT_COMMAND else c.LORAWAN_PORT_MESSAGE) s)
    ∧ uplink_message_kind s.tx_counter = s.tx_counter % 3
    ∧ uplink_message_kind (s.tx_counter + 3) = uplink_message_kind s.tx_counter
    ∧ [0, 1, 2, 3, 4, 5].map uplink_message_kind = [0, 1, 2, 0, 1, 2]
    ∧ (∀ (LMIC : lmic_t) (now_tx now_rx : Nat), s.tx_counter + 1 < 2 ^ 32 →
        (onEvent c LMIC now_tx now_rx ev_t.EV_TXCOMPLETE s).tx_counter = s.tx_counter + 1)
    ∧ (∀ (LMIC : lmic_t) (now_tx now_rx : Nat) (event : ev_t), event ≠ ev_t.EV_TXCOMPLETE →
        (onEvent c LMIC now_tx now_rx event s).tx_counter = s.tx_counter) := by
  refine ⟨?_, ?_, ?_, rfl, ?_, by decide, ?_, ?_⟩
  · intro h
    simp only [lorawan_prepare_uplink_transmission, h, if_true]
  · intro h
    simp only [lorawan_prepare_uplink_transmission, h]
    simp
  · intro h h1 h2
    simp only [lorawan_prepare_uplink_transmission, h]
    simp [h1, h2]
  · simp [uplink_message_kind]
  · intro LMIC now_tx now_rx hlt
    simp only [onEvent, handle_message_tx_counter]
    split_ifs <;> simp [u32_of_lt hlt]
  · intro LMIC now_tx now_rx event hne
    cases event <;> simp [onEvent] at hne ⊢

/-- C5, on a concrete counter: after two completed transmissions the counter is 2 and
the builder, with the display away from the entry pages, commits the pending text on the
message port. -/
theorem payload_kind_rotation_witness :
    (onEvent sample_facts idle_lmic 10 10 ev_t.EV_TXCOMPLETE
        (onEvent sample_facts idle_lmic 5 5 ev_t.EV_TXCOMPLETE (boot_state 60))).tx_counter = 2
    ∧ (lorawan_prepare_uplink_transmission sample_facts int_float_ops byte_packet_ops
        (quiet_uplink 20 0) state_with_pending).next_tx_message.port
        = sample_facts.LORAWAN_PORT_MESSAGE := by
  constructor
  · rw [(payload_kind_rotation sample_facts int_float_ops byte_packet_ops (quiet_uplink 20 0)
      (onEvent sample_facts idle_lmic 5 5 ev_t.EV_TXCOMPLETE (boot_state 60))).2.2.2.2.2.2.1
      idle_lmic 10 10 (by decide)]
    decide
  · rw [(payload_kind_rotation sample_facts int_float_ops byte_packet_ops (quiet_uplink 20 0)
      state_with_pending).2.2.1 (by decide) (by decide) (by decide)]
    rfl

/-! ## C6 and C7: the environmental sampler -/

/-- C6. When the humidity read, the pressure read (after its conversion to hPa) and the
raw temperature all compare equal to zero, the reading returned by `env_sensor_get_data`
has altitude exactly zero, whatever altitude the driver returned and whatever the power
source, and its temperature is the raw one: no calibration offset is added. -/
theorem sensor_absent_altitude_zero {F : Type} (fo : float_ops F)
    (TEMP_OFFSET_CELCIUS_USB TEMP_OFFSET_CELCIUS_BATT : F) (bme : bme280_readings F)
    (power : power_status F) (s : env_sensor_state F)
    (hh : fo.is_zero bme.readHumidity = true)
    (hp : fo.is_zero (fo.div_int bme.readPressure 100) = true)
    (ht : fo.is_zero bme.readTemperature = true) :
    (env_sensor_get_data (env_sensor_read_decode fo TEMP_OFFSET_CELCIUS_USB
        TEMP_OFFSET_CELCIUS_BATT bme power s)).altitude_metre = fo.zero
    ∧ (env_sensor_get_data (env_sensor_read_decode fo TEMP_OFFSET_CELCIUS_USB
        TEMP_OFFSET_CELCIUS_BATT bme power s)).temp_celcius = bme.readTemperature := by
  simp [env_sensor_get_data, env_sensor_read_decode, hh, hp, ht]

/-- C6, on a concrete reading: the driver of an absent sensor returns zero humidity,
pressure and temperature together with the altitude 44330 m; the stored altitude and
temperature are 0, on USB power as well. -/
theorem sensor_absent_altitude_zero_witness :
    (env_sensor_get_data (env_sensor_read_decode int_float_ops 5 (-18)
        { readAltitude := 44330, readHumidity := 0, readPressure := 0, readTemperature := 0 }
        { is_usb_power_available := true, is_batt_charging := false, batt_millivolt := 4100,
          power_draw_milliamp := 120 }
        { latest := { temp_celcius := 213, humidity_pct := 45, pressure_hpa := 1013,
                      altitude_metre := 12 },
          sum_temp_readings := 213 })).altitude_metre = 0
    ∧ (env_sensor_get_data (env_sensor_read_decode int_float_ops 5 (-18)
        { readAltitude := 44330, readHumidity := 0, readPressure := 0, readTemperature := 0 }
        { is_usb_power_available := true, is_batt_charging := false, batt_millivolt := 4100,
          power_draw_milliamp := 120 }
        { latest := { temp_celcius := 213, humidity_pct := 45, pressure_hpa := 1013,
                      altitude_metre := 12 },
          sum_temp_readings := 213 })).temp_celcius = 0 :=
  sensor_absent_altitude_zero int_float_ops 5 (-18) _ _ _ (by decide) (by decide) (by decide)

/-- C7. For a reading that is not the all-zero fault, the stored temperature is the raw
temperature plus `TEMP_OFFSET_CELCIUS_USB` when the power status reports USB power and
plus `TEMP_OFFSET_CELCIUS_BATT` otherwise, whatever the other members of the power
status are; humidity, pressure (converted to hPa) and altitude are stored as read. -/
theorem temperature_calibration {F : Type} (fo : float_ops F)
    (TEMP_OFFSET_CELCIUS_USB TEMP_OFFSET_CELCIUS_BATT : F) (bme : bme280_readings F)
    (power : power_status F) (s : env_sensor_state F)
    (hvalid : ¬ (fo.is_zero bme.readHumidity = true
      ∧ fo.is_zero (fo.div_int bme.readPressure 100) = true
      ∧ fo.is_zero bme.readTemperature = true)) :
    (env_sensor_get_data (env_sensor_read_decode fo TEMP_OFFSET_CELCIUS_USB
        TEMP_OFFSET_CELCIUS_BATT bme power s)).temp_celcius
      = fo.add bme.readTemperature
          (if power.is_usb_power_available = true then TEMP_OFFSET_CELCIUS_USB
            else TEMP_OFFSET_CELCIUS_BATT)
    ∧ (env_sensor_get_data (env_sensor_read_decode fo TEMP_OFFSET_CELCIUS_USB
        TEMP_OFFSET_CELCIUS_BATT bme power s)).humidity_pct = bme.readHumidity
    ∧ (env_sensor_get_data (env_sensor_read_decode fo TEMP_OFFSET_CELCIUS_USB
        TEMP_OFFSET_CELCIUS_BATT bme power s)).pressure_hpa = fo.div_int bme.readPressure 100
    ∧ (env_sensor_get_data (env_sensor_read_decode fo TEMP_OFFSET_CELCIUS_USB
        TEMP_OFFSET_CELCIUS_BATT bme power s)).altitude_metre = bme.readAltitude := by
  have hc : (fo.is_zero bme.readHumidity && fo.is_zero (fo.div_int bme.readPressure 100)
      && fo.is_zero bme.readTemperature) = false := by
    cases h1 : fo.is_zero bme.readHumidity <;>
      cases h2 : fo.is_zero (fo.div_int bme.readPressure 100) <;>
      cases h3 : fo.is_zero bme.readTemperature <;> simp_all
  simp only [env_sensor_get_data, env_sensor_read_decode, hc]
  cases power.is_usb_power_available <;> simp

/-- C7, on the example of the specification in tenths of a unit: 45 %, 101300 Pa and
21.3 degrees on USB power with an offset of +0.5 degrees give a stored temperature of
21.8 degrees, humidity 45 % and pressure 1013 hPa. -/
theorem temperature_calibration_witness :
    (env_sensor_get_data (env_sensor_read_decode int_float_ops 5 (-18)
        { readAltitude := 120, readHumidity := 45, readPressure := 101300,
          readTemperature := 213 }
        { is_usb_power_available := true, is_batt_charging := false, batt_millivolt := 4100,
          power_draw_milliamp := 120 }
        { latest := { temp_celcius := 0, humidity_pct := 0, pressure_hpa := 0,
                      altitude_metre := 0 },
          sum_temp_readings := 0 })).temp_celcius = 218
    ∧ (env_sensor_get_data (env_sensor_read_decode int_float_ops 5 (-18)
        { readAltitude := 120, readHumidity := 45, readPressure := 101300,
          readTemperature := 213 }
        { is_usb_power_available := true, is_batt_charging := false, batt_millivolt := 4100,
          power_draw_milliamp := 120 }
        { latest := { temp_celcius := 0, humidity_pct := 0, pressure_hpa := 0,
                      altitude_metre := 0 },
          sum_temp_readings := 0 })).pressure_hpa = 1013 := by
  have h := temperature_calibration int_float_ops 5 (-18)
    { readAltitude := 120, readHumidity := 45, readPressure := 101300, readTemperature := 213 }
    { is_usb_power_available := true, is_batt_charging := false, batt_millivolt := 4100,
      power_draw_milliamp := 120 }
    { latest := { temp_celcius := 0, humidity_pct := 0, pressure_hpa := 0,
                  altitude_metre := 0 },
      sum_temp_readings := 0 } (by decide)
  exact ⟨h.1, h.2.2.1⟩

/-! ## C8: the kind 2 slot while the user is typing -/

/-- C8, as stated, fails: the tick submits to the radio although nothing new was built.
With `tx_counter = 2`, the display on the message entry page and a three-byte payload of
kind 1 pending since the attempt at 1000 ms, the tick at 70000 ms (interval 60 s) passes
the gate and calls the send primitive with that pending payload (length 3, port
`GPS_WIFI`). -/
theorem typing_slot_counterexample :
    tx_gate_open (quiet_tick 70000 sample_facts.OLED_PAGE_TX_MESSAGE 0).millis_gate
        (os_runloop_once sample_facts
          (quiet_tick 70000 sample_facts.OLED_PAGE_TX_MESSAGE 0).runloop_callbacks
          state_with_pending) = true
    ∧ uplink_message_kind state_with_pending.tx_counter = 2
    ∧ (quiet_tick 70000 sample_facts.OLED_PAGE_TX_MESSAGE 0).uplink.oled_page_number
        = sample_facts.OLED_PAGE_TX_MESSAGE
    ∧ attempted (lorawan_transceive sample_facts int_float_ops byte_packet_ops
        (quiet_tick 70000 sample_facts.OLED_PAGE_TX_MESSAGE 0) state_with_pending) = true
    ∧ (lorawan_transceive sample_facts int_float_ops byte_packet_ops
        (quiet_tick 70000 sample_facts.OLED_PAGE_TX_MESSAGE 0) state_with_pending).submitted.map
          (fun sub => (sub.port, sub.len, sub.buf 0, sub.buf 1, sub.buf 2))
        = some (sample_facts.LORAWAN_PORT_GPS_WIFI, 3, 1, 2, 3) := by
  refine ⟨by decide, by decide, rfl, by decide, by decide⟩

/-- C8, amended. In a tick that passes the gate with `tx_counter mod 3 = 2` while the
display is on the command or the message entry page, the builder leaves the pending
message (bytes, length and port) exactly as it was before the tick, and the tick submits
that unchanged message to the send primitive. -/
theorem typing_slot_resubmits_pending {F P : Type} (c : hardware_facts) (fo : float_ops F)
    (ops : DataPacket_ops F P) (inp : tick_inputs F) (s : lorawan_state)
    (hgate : tx_gate_open inp.millis_gate (os_runloop_once c inp.runloop_callbacks s) = true)
    (hkind : uplink_message_kind (os_runloop_once c inp.runloop_callbacks s).tx_counter = 2)
    (hpage : inp.uplink.oled_page_number = c.OLED_PAGE_TX_COMMAND
      ∨ inp.uplink.oled_page_number = c.OLED_PAGE_TX_MESSAGE) :
    (lorawan_transceive c fo ops inp s).state.next_tx_message.buf = s.next_tx_message.buf
    ∧ (lorawan_transceive c fo ops inp s).state.next_tx_message.len = s.next_tx_message.len
    ∧ (lorawan_transceive c fo ops inp s).state.next_tx_message.port = s.next_tx_message.port
    ∧ (lorawan_transceive c fo ops inp s).submitted
        = some { port := s.next_tx_message.port, buf := s.next_tx_message.buf,
                 len := s.next_tx_message.len,
                 err := inp.LMIC_setTxData2_strict s.next_tx_message.port
                   s.next_tx_message.buf s.next_tx_message.len } := by
  have hprep : lorawan_prepare_uplink_transmission c fo ops inp.uplink
      (os_runloop_once c inp.runloop_callbacks s)
      = os_runloop_once c inp.runloop_callbacks s := by
    simp only [lorawan_prepare_uplink_transmission, hkind]
    rcases hpage with h | h <;> simp [h]
  simp only [lorawan_transceive, hgate, if_true, hprep]
  split_ifs <;> simp

/-- C8, amended, on a concrete tick: the pending three-byte payload stays in place and is
what the tick hands to the send primitive. -/
theorem typing_slot_resubmits_pending_witness :
    (lorawan_transceive sample_facts int_float_ops byte_packet_ops
        (quiet_tick 70000 sample_facts.OLED_PAGE_TX_COMMAND 0)
        state_with_pending).state.next_tx_message.len = 3
    ∧ (lorawan_transceive sample_facts int_float_ops byte_packet_ops
        (quiet_tick 70000 sample_facts.OLED_PAGE_TX_COMMAND 0) state_with_pending).submitted.isSome
        = true := by
  have h := typing_slot_resubmits_pending sample_facts int_float_ops byte_packet_ops
    (quiet_tick 70000 sample_facts.OLED_PAGE_TX_COMMAND 0) state_with_pending
    (by decide) (by decide) (Or.inl rfl)
  refine ⟨h.2.1, ?_⟩
  rw [h.2.2.2]
  rfl

/-! ## C9: truncation of an outbound message -/

/-- C9. After `lorawan_set_next_transmission(buf, len, port)` the pending message
returned by `lorawan_get_transmission` has length `min len LORAWAN_MAX_MESSAGE_LEN`, its
first that-many bytes are the first that-many bytes of `buf`, and its port is `port`: an
oversized length is cut down to the maximum and nothing is rejected. -/
theorem set_next_transmission_truncates (c : hardware_facts) (buf : Nat → Nat) (len : Nat)
    (port : Int) (s : lorawan_state) :
    (lorawan_get_transmission (lorawan_set_next_transmission c buf len port s)).len
      = min len c.LORAWAN_MAX_MESSAGE_LEN
    ∧ (∀ i, i < min len c.LORAWAN_MAX_MESSAGE_LEN →
        (lorawan_get_transmission (lorawan_set_next_transmission c buf len port s)).buf i
          = buf i)
    ∧ (lorawan_get_transmission (lorawan_set_next_transmission c buf len port s)).port
      = port := by
  have hmin : (if len > c.LORAWAN_MAX_MESSAGE_LEN then c.LORAWAN_MAX_MESSAGE_LEN else len)
      = min len c.LORAWAN_MAX_MESSAGE_LEN := by
    split_ifs <;> omega
  simp only [lorawan_get_transmission, lorawan_set_next_transmission, hmin, true_and, and_true]
  intro i hi
  simp [hi]

/-- C9, on a concrete call: 60 bytes offered while the maximum is 41. The pending
message has length 41, byte 40 is byte 40 of the offered buffer, and the port is the
given one. -/
theorem set_next_transmission_truncates_witness :
    (lorawan_get_transmission (lorawan_set_next_transmission sample_facts
        (fun i => 200 - i) 60 129 (boot_state 60))).len = 41
    ∧ (lorawan_get_transmission (lorawan_set_next_transmission sample_facts
        (fun i => 200 - i) 60 129 (boot_state 60))).buf 40 = 160
    ∧ (lorawan_get_transmission (lorawan_set_next_transmission sample_facts
        (fun i => 200 - i) 60 129 (boot_state 60))).port = 129 :=
  ⟨(set_next_transmission_truncates sample_facts (fun i => 200 - i) 60 129 (boot_state 60)).1,
   (set_next_transmission_truncates sample_facts (fun i => 200 - i) 60 129
      (boot_state 60)).2.1 40 (by decide),
   (set_next_transmission_truncates sample_facts (fun i => 200 - i) 60 129
      (boot_state 60)).2.2⟩

/-! ## C10: the 16-bit age fields -/

/-- C10 fails on the code: the clamp value is 65536, one more than the largest 16-bit
value. For a downlink 70000 s ago, or none yet at clock value 0, the kind 0 builder hands
65536 to the 2-byte `writeInteger`; for a GPS fix 70000 s old the kind 1 builder hands
65536 as well, and a fix age of 0 is handed on as 0. The two low-order bytes of 65536 are
both 0. Elapsed times from 1 to 65535 s are handed on unchanged. -/
theorem age_fields_exceed_16_bits :
    uplink_last_rx_sec 70000000 0 = 65536
    ∧ uplink_last_rx_sec 0 0 = 65536
    ∧ uplink_gps_age_sec 70000 = 65536
    ∧ uplink_gps_age_sec 0 = 0
    ∧ ¬ (uplink_last_rx_sec 70000000 0 ≤ 65535)
    ∧ ¬ (uplink_gps_age_sec 70000 ≤ 65535)
    ∧ integer_bytes (uplink_last_rx_sec 70000000 0) 2 = [0, 0]
    ∧ uplink_last_rx_sec 65535000 0 = 65535 := by
  decide

/-! ## C11: index safety of the hop tick -/

theorem wifi_hop_keeps_channel_in_range (c : hardware_facts) (s : wifi_state)
    (hN32 : c.WIFI_MAX_CHANNEL_NUM + 1 < 2 ^ 32)
    (hlo : 1 ≤ s.channel_num) (hhi : s.channel_num ≤ c.WIFI_MAX_CHANNEL_NUM) :
    1 ≤ (wifi_next_channel c s).channel_num
      ∧ (wifi_next_channel c s).channel_num ≤ c.WIFI_MAX_CHANNEL_NUM
      ∧ u32_sub s.channel_num 1 < c.WIFI_MAX_CHANNEL_NUM := by
  have hsub : u32_sub s.channel_num 1 = s.channel_num - 1 := u32_sub_of_le hlo (by omega)
  by_cases h : s.channel_num = c.WIFI_MAX_CHANNEL_NUM
  · have := (wifi_hop_wrap c s hN32 h).1
    omega
  · have := (wifi_hop_inside c s hN32 (by omega)).1
    omega

set_option maxRecDepth 8192 in
/-- C11 fails on the code: the reset `channel_pkt_counter[channel_num] = 0` after the
advance uses the channel number itself as index, not `channel_num - 1` as the store
before the advance does. Twelve hop ticks after start-up with 14 channels the scanner is
on channel 13; the next call stores at index 12, moves to channel 14 and then stores at
index 14, while the array has the indices 0 to 13. The channel number itself stays in
range. -/
theorem hop_reset_index_out_of_range :
    (wifi_run sample_facts (List.replicate 12 wifi_step.hop)
        (wifi_boot_state sample_facts)).channel_num = 13
    ∧ wifi_next_channel_stores sample_facts
        (wifi_run sample_facts (List.replicate 12 wifi_step.hop)
          (wifi_boot_state sample_facts)) = [12, 14]
    ∧ (wifi_next_channel sample_facts
        (wifi_run sample_facts (List.replicate 12 wifi_step.hop)
          (wifi_boot_state sample_facts))).channel_num = 14
    ∧ ¬ (∀ i ∈ wifi_next_channel_stores sample_facts
          (wifi_run sample_facts (List.replicate 12 wifi_step.hop)
            (wifi_boot_state sample_facts)),
        i < sample_facts.WIFI_MAX_CHANNEL_NUM) := by
  decide

/-! ## C12: index safety of the kind 2 builder -/

theorem morse_copy_loop_stores_mem (n i : Nat) : i ∈ morse_copy_loop_stores n ↔ i < n := by
  induction n with
  | zero => simp [morse_copy_loop_stores]
  | succ n ih =>
    simp only [morse_copy_loop_stores, List.mem_append, ih, List.mem_singleton]
    omega

theorem morse_copy_loop_inside (morse_message : List Nat) (n : Nat) (buf : Nat → Nat) (i : Nat)
    (hi : i < n) : morse_copy_loop morse_message n buf i = morse_message.getD i 0 % 256 := by
  induction n with
  | zero => omega
  | succ n ih =>
    simp only [morse_copy_loop]
    by_cases h : i = n
    · subst h; simp
    · rw [Function.update_noteq h]
      exact ih (by omega)

theorem kind2_commits_text_head {F P : Type} (c : hardware_facts) (fo : float_ops F)
    (ops : DataPacket_ops F P) (inp : uplink_inputs F) (s : lorawan_state)
    (hkind : uplink_message_kind s.tx_counter = 2)
    (h1 : inp.oled_page_number ≠ c.OLED_PAGE_TX_COMMAND)
    (h2 : inp.oled_page_number ≠ c.OLED_PAGE_TX_MESSAGE) :
    (lorawan_prepare_uplink_transmission c fo ops inp s).next_tx_message.len
      = min inp.morse_message_buf.length c.LORAWAN_MAX_MESSAGE_LEN
    ∧ ∀ i, i < min inp.morse_message_buf.length c.LORAWAN_MAX_MESSAGE_LEN →
        (lorawan_prepare_uplink_transmission c fo ops inp s).next_tx_message.buf i
          = inp.morse_message_buf.getD i 0 % 256 := by
  have hmin : (if inp.morse_message_buf.length > c.LORAWAN_MAX_MESSAGE_LEN
      then c.LORAWAN_MAX_MESSAGE_LEN else inp.morse_message_buf.length)
      = min inp.morse_message_buf.length c.LORAWAN_MAX_MESSAGE_LEN := by
    split_ifs <;> omega
  have hp : lorawan_prepare_uplink_transmission c fo ops inp s
      = lorawan_set_next_transmission c
          (morse_copy_loop inp.morse_message_buf inp.morse_message_buf.length (fun _ => 0))
          inp.morse_message_buf.length
          (if inp.oled_last_morse_input_page_num = c.OLED_PAGE_TX_COMMAND
            then c.LORAWAN_PORT_COMMAND else c.LORAWAN_PORT_MESSAGE) s := by
    simp only [lorawan_prepare_uplink_transmission, hkind]
    simp [h1, h2]
  rw [hp]
  simp only [lorawan_set_next_transmission, hmin, true_and]
  intro i hi
  show (if i < min inp.morse_message_buf.length c.LORAWAN_MAX_MESSAGE_LEN
      then morse_copy_loop inp.morse_message_buf inp.morse_message_buf.length (fun _ => 0) i
      else s.next_tx_message.buf i) = inp.morse_message_buf.getD i 0 % 256
  rw [if_pos hi]
  exact morse_copy_loop_inside _ _ _ _ (by omega)

/-- C12 fails on the code: the copy loop of the kind 2 builder runs over the whole text,
whatever the size of the staging array. With a maximum of 41 and a pending text of 42
characters the loop stores to the indices 0 to 41 of an array whose last index is 40.
The message committed afterwards (display away from the entry pages) has length 41 and
starts with the first characters of the text. -/
theorem morse_copy_index_out_of_range :
    (41 ∈ morse_copy_loop_stores (List.replicate 42 65).length)
    ∧ ¬ (∀ i ∈ morse_copy_loop_stores (List.replicate 42 65).length,
          i < sample_facts.LORAWAN_MAX_MESSAGE_LEN)
    ∧ (lorawan_prepare_uplink_transmission sample_facts int_float_ops byte_packet_ops
        { quiet_uplink 70000 0 with morse_message_buf := List.replicate 42 65 }
        state_with_pending).next_tx_message.len = 41
    ∧ (lorawan_prepare_uplink_transmission sample_facts int_float_ops byte_packet_ops
        { quiet_uplink 70000 0 with morse_message_buf := List.replicate 42 65 }
        state_with_pending).next_tx_message.buf 40 = 65 := by
  refine ⟨by decide, ?_, by decide, by decide⟩
  intro h
  exact absurd (h 41 (by decide)) (by decide)

end LoraCommunicator
